import Mathlib

/-!
# testclusters-go: cluster name prefixes, readiness probing, node health

A shallow embedding of `pkg/cluster/cluster.go` and `pkg/cluster/health/*.go`.

* Go strings are Lean strings, Go `error` values are `Option GoError` (`none` is `nil`).
* Calls to collaborators outside the repository (k3d, client-go, the API server) are
  answered by a `World`; every call is recorded in a chronological `Trace`.
* A Go `panic` is the `Outcome.panic` result.
-/

namespace Testclusters

/-! ## Go values -/

/-- A non-nil Go `error`: built by `fmt.Errorf` without `%w` (or `errors.New`), or by
`fmt.Errorf(pre + "%w", cause)`, which keeps `cause` reachable through `Unwrap`. -/
inductive GoError where
  | errorf (msg : String)
  | wrapf (pre : String) (cause : GoError)
  deriving DecidableEq, Repr

/-- The method `Error()`: the message of an error. -/
def GoError.Error : GoError → String
  | .errorf msg => msg
  | .wrapf pre cause => pre ++ cause.Error

/-- The method `Unwrap()` of the errors built by `fmt.Errorf`. -/
def GoError.Unwrap : GoError → Option GoError
  | .errorf _ => none
  | .wrapf _ cause => some cause

/-- Substring test (`strings.Contains`) as a proposition on the characters. -/
def Contains (s sub : String) : Prop := sub.data <:+: s.data

/-! ## The subset of Go `regexp` (RE2 syntax, Perl flags) used by the repository -/

namespace regexp

/-- A pattern element that matches at one position. -/
inductive Atom where
  /-- The pattern `^` (flag OneLine): beginning of the text. -/
  | beginText
  /-- The pattern `$` (flag OneLine): end of the text. -/
  | endText
  /-- The pattern `.` without flag `s`: any character but a newline. -/
  | anyCharNotNL
  /-- A literal character. -/
  | literal (c : Char)
  /-- A bracket expression, as its list of inclusive ranges. -/
  | charClass (negated : Bool) (ranges : List (Char × Char))
  deriving DecidableEq, Repr

/-- An atom with its repetition bounds (`max = none`: unbounded). -/
structure Piece where
  atom : Atom
  min : Nat
  max : Option Nat
  deriving DecidableEq, Repr

/-- An atom that is not repeated. -/
def Piece.single (a : Atom) : Piece := ⟨a, 1, some 1⟩

def isDigit (c : Char) : Bool := decide ('0' ≤ c) && decide (c ≤ '9')

/-- Function `parseInt` of `regexp/syntax`: a run of decimal digits without a leading zero. -/
def parseInt (s : List Char) : Option (Nat × List Char) :=
  match s with
  | [] => none
  | c :: rest =>
    if !isDigit c then none
    else if c = '0' && (rest.head?.map isDigit).getD false then none
    else
      let ds := s.takeWhile isDigit
      some (ds.foldl (fun n d => n * 10 + (d.toNat - 48)) 0, s.dropWhile isDigit)

/-- Method `parser.repeat(s)` of `regexp/syntax`: parses `{min}`, `{min,}` or `{min,max}` at the
head of `s`; `none` when `s` does not start with a well-formed repetition. -/
def parseRepeat (s : List Char) : Option (Nat × Option Nat × List Char) :=
  match s with
  | [] => none
  | c :: s1 =>
    if c ≠ '\x7b' then none
    else
      match parseInt s1 with
      | none => none
      | some (min, s2) =>
        match s2 with
        | [] => none
        | d :: s3 =>
          if d = '\x7d' then some (min, some min, s3)
          else if d ≠ ',' then none
          else
            match s3 with
            | [] => none
            | e :: s4 =>
              if e = '\x7d' then some (min, none, s4)
              else
                match parseInt s3 with
                | none => none
                | some (max, s5) =>
                  match s5 with
                  | [] => none
                  | f :: s6 => if f = '\x7d' then some (min, some max, s6) else none

/-- The items of a bracket expression after `[` (and after `^`), up to the closing `]`
(`parseClass` with `parseClassRange`). Escapes and named classes are outside the subset. -/
def parseClassItems : Nat → Bool → List Char → List (Char × Char) →
    Option (List (Char × Char) × List Char)
  | 0, _, _, _ => none
  | fuel + 1, first, t, acc =>
    match t with
    | [] => none
    | lo :: t1 =>
      if lo = ']' && !first then some (acc.reverse, t1)
      else if lo = '\\' || (lo = '[' && t1.head? = some ':') then none
      else
        match t1 with
        | dash :: hi :: t2 =>
          if dash = '-' && hi ≠ ']' then
            if hi = '\\' || hi < lo then none
            else parseClassItems fuel false t2 ((lo, hi) :: acc)
          else parseClassItems fuel false t1 ((lo, lo) :: acc)
        | _ => parseClassItems fuel false t1 ((lo, lo) :: acc)

/-- Function `parseClass`, on the input after the opening `[`. -/
def parseClass (t : List Char) : Option (Atom × List Char) :=
  match t with
  | '^' :: t1 =>
    (parseClassItems (t1.length + 1) true t1 []).map fun r => (Atom.charClass true r.1, r.2)
  | _ =>
    (parseClassItems (t.length + 1) true t []).map fun r => (Atom.charClass false r.1, r.2)

/-- The main loop of `syntax.Parse` with the flags of `regexp.Compile` (`syntax.Perl`).
The stack holds the pieces parsed so far, last first. `none` is a syntax error or a
construct outside the subset (groups, alternation, escapes, `*`, `+`, `?`). -/
def parseLoop : Nat → Bool → List Char → List Piece → Option (List Piece)
  | 0, _, _, _ => none
  | fuel + 1, lastRepeat, t, stack =>
    match t with
    | [] => some stack.reverse
    | c :: t1 =>
      if c = '^' then parseLoop fuel false t1 (Piece.single .beginText :: stack)
      else if c = '$' then parseLoop fuel false t1 (Piece.single .endText :: stack)
      else if c = '.' then parseLoop fuel false t1 (Piece.single .anyCharNotNL :: stack)
      else if c = '[' then
        match parseClass t1 with
        | none => none
        | some (cls, t2) => parseLoop fuel false t2 (Piece.single cls :: stack)
      else if c = '\x7b' then
        match parseRepeat t with
        | none =>
          -- "If the repeat cannot be parsed, { is a literal."
          parseLoop fuel false t1 (Piece.single (.literal c) :: stack)
        | some (min, max, after) =>
          if min > 1000 || (max.getD 0) > 1000 || (max.isSome && min > max.getD 0) then none
          else if after.head? = some '?' then none
          else if lastRepeat then none
          else
            match stack with
            | [] => none
            | p :: ps => parseLoop fuel true after (⟨p.atom, min, max⟩ :: ps)
      else if c = '*' || c = '+' || c = '?' || c = '(' || c = ')' || c = '|' || c = '\\' then none
      else parseLoop fuel false t1 (Piece.single (.literal c) :: stack)

/-- Function `regexp.Compile`: the parsed pattern, or `none` on an error. -/
def Compile (pattern : String) : Option (List Piece) :=
  parseLoop (pattern.data.length + 1) false pattern.data []

/-- One match of an atom at a position: the position after it. The flag says whether the
position is the beginning of the text. -/
def Atom.step (a : Atom) (atStart : Bool) (s : List Char) : Option (Bool × List Char) :=
  match a with
  | .beginText => if atStart then some (atStart, s) else none
  | .endText => if s.isEmpty then some (atStart, s) else none
  | .anyCharNotNL =>
    match s with
    | [] => none
    | c :: cs => if c ≠ '\n' then some (false, cs) else none
  | .literal l =>
    match s with
    | [] => none
    | c :: cs => if c = l then some (false, cs) else none
  | .charClass negated ranges =>
    match s with
    | [] => none
    | c :: cs =>
      if (ranges.any fun r => decide (r.1 ≤ c) && decide (c ≤ r.2)) != negated then some (false, cs)
      else none

/-- Matches `a` at most `extra` more times, then continues with `k`. -/
def matchOpt (a : Atom) (k : Bool → List Char → Bool) : Nat → Bool → List Char → Bool
  | 0, st, s => k st s
  | extra + 1, st, s =>
    k st s ||
      (match a.step st s with
       | none => false
       | some r => matchOpt a k extra r.1 r.2)

/-- Matches `a` exactly `min` times, then continues with `k`. -/
def matchMin (a : Atom) (k : Bool → List Char → Bool) : Nat → Bool → List Char → Bool
  | 0, st, s => k st s
  | min + 1, st, s =>
    match a.step st s with
    | none => false
    | some r => matchMin a k min r.1 r.2

/-- Matches `a` at least `min` and at most `min + extra` times, then continues with `k`. -/
def matchRep (a : Atom) (k : Bool → List Char → Bool) (min extra : Nat) :
    Bool → List Char → Bool :=
  matchMin a (matchOpt a k extra) min

/-- Whether the pieces match a prefix of `s` (a backtracking matcher). -/
def matchPieces : List Piece → Bool → List Char → Bool
  | [], _, _ => true
  | p :: ps, st, s =>
    matchRep p.atom (matchPieces ps) p.min
      (match p.max with
       | some m => m - p.min
       | none => s.length + 1) st s

/-- Whether the pieces match at some position of the text. -/
def searchFrom (re : List Piece) : Bool → List Char → Bool
  | st, [] => matchPieces re st []
  | st, c :: cs => matchPieces re st (c :: cs) || searchFrom re false cs

/-- Method `MatchString`: whether the text contains any match of the pattern. -/
def MatchString (re : List Piece) (s : String) : Bool := searchFrom re true s.data

end regexp

/-! ## `pkg/cluster/cluster.go`: the cluster name prefix -/

/-- Constant `defaultPrefix`. -/
def defaultPrefix : String := "tc-"

/-- Constant `restrictedContainerNameChars`: the Go raw string
`[a-zA-Z0-9][a-zA-Z0-9_.-]{1..37}` (braces written as escapes here). -/
def restrictedContainerNameChars : String := "[a-zA-Z0-9][a-zA-Z0-9_.-]\x7b1..37\x7d"

/-- Variable `restrictedContainerNamePattern`:
`regexp.MustCompile("^" + restrictedContainerNameChars + "$")`. `MustCompile` panics when the
pattern does not compile; `restrictedContainerNamePattern_compiles` shows that it does. -/
def restrictedContainerNamePattern : List regexp.Piece :=
  (regexp.Compile ("^" ++ restrictedContainerNameChars ++ "$")).getD []

/-- The process-wide source of `math/rand`: the raw value of each draw, by draw number. -/
abbrev RandSource := Nat → Nat

/-- Function `rand.Intn(n)` for `0 < n`: draw number `i`, a value in `[0, n)`. -/
def Intn (src : RandSource) (i n : Nat) (h : 0 < n) : Fin n := ⟨src i % n, Nat.mod_lt _ h⟩

/-- Constant `letterBytes` of `generatePseudoPrefix`. -/
def letterBytes : List Char := "abcdefghijklmnopqrstuvwxyz0123456789".data

/-- The loop of `generatePseudoPrefix`: fills `n` bytes, each `letterBytes[rand.Intn(len(letterBytes))]`,
starting with draw number `i`. -/
def fillBytes (src : RandSource) : Nat → Nat → List Char
  | 0, _ => []
  | n + 1, i => letterBytes.get (Intn src i letterBytes.length (by decide)) :: fillBytes src n (i + 1)

/-- Function `generatePseudoPrefix(length)`: the generated string and the number of the next draw. -/
def generatePseudoPrefix (src : RandSource) (i length : Nat) : String × Nat :=
  (String.mk (fillBytes src length i), i + length)

/-- The message of the error of `validateClusterNamePrefix`:
`"total cluster name prefix '%s' looks invalid (valid pattern: %s)"`. -/
def invalidPrefixMessage (totalPrefix : String) : String :=
  "total cluster name prefix '" ++ totalPrefix ++ "' looks invalid (valid pattern: " ++
    restrictedContainerNameChars ++ ")"

/-- Function `validateClusterNamePrefix(prefix)`, from draw number `i` of the random source:
the returned pair and the number of the next draw. -/
def validateClusterNamePrefix (src : RandSource) (i : Nat) (pfx : String) :
    (String × Option GoError) × Nat :=
  let generated := generatePseudoPrefix src i 6
  if pfx = "" then ((defaultPrefix ++ generated.1, none), generated.2)
  else
    let totalPrefix := defaultPrefix ++ pfx
    let valid := regexp.MatchString restrictedContainerNamePattern totalPrefix
    if valid then ((totalPrefix, none), generated.2)
    else (("", some (GoError.errorf (invalidPrefixMessage totalPrefix))), generated.2)

/-! ### The grammar in the words of the specification -/

/-- A letter or a digit. -/
def specAlnum (c : Char) : Bool :=
  (decide ('a' ≤ c) && decide (c ≤ 'z')) || (decide ('A' ≤ c) && decide (c ≤ 'Z')) ||
    (decide ('0' ≤ c) && decide (c ≤ '9'))

/-- The grammar as the specification words it: "first character alphanumeric, remaining
characters alphanumeric/underscore/dot/hyphen, total length bounded (2–38 characters)". -/
def specWellFormed (s : String) : Bool :=
  match s.data with
  | [] => false
  | c :: cs =>
    specAlnum c && cs.all (fun d => specAlnum d || d = '_' || d = '.' || d = '-') &&
      decide (2 ≤ s.data.length) && decide (s.data.length ≤ 38)

/-- The pattern the comment on `restrictedContainerNameChars` describes, with the repetition
written `{1,37}`. -/
def intendedContainerNamePattern : List regexp.Piece :=
  (regexp.Compile "^[a-zA-Z0-9][a-zA-Z0-9_.-]\x7b1,37\x7d$").getD []

/-- What `restrictedContainerNamePattern` compiles to
(see `restrictedContainerNamePattern_compiles`). -/
def parsedContainerNamePattern : List regexp.Piece :=
  [regexp.Piece.single .beginText,
    regexp.Piece.single (.charClass false [('a', 'z'), ('A', 'Z'), ('0', '9')]),
    regexp.Piece.single (.charClass false
      [('a', 'z'), ('A', 'Z'), ('0', '9'), ('_', '_'), ('.', '.'), ('-', '-')]),
    regexp.Piece.single (.literal '\x7b'), regexp.Piece.single (.literal '1'),
    regexp.Piece.single .anyCharNotNL, regexp.Piece.single .anyCharNotNL,
    regexp.Piece.single (.literal '3'), regexp.Piece.single (.literal '7'),
    regexp.Piece.single (.literal '\x7d'), regexp.Piece.single .endText]

/-! ## `k8s.io/api/core/v1`: nodes and their conditions -/

namespace v1

/-- Constant `NodeReady` of type `NodeConditionType`, a string type. -/
def NodeReady : String := "Ready"
/-- Constant `NodeMemoryPressure`. -/
def NodeMemoryPressure : String := "MemoryPressure"
/-- Constant `NodeDiskPressure`. -/
def NodeDiskPressure : String := "DiskPressure"
/-- Constant `NodePIDPressure`. -/
def NodePIDPressure : String := "PIDPressure"
/-- Constant `NodeNetworkUnavailable`. -/
def NodeNetworkUnavailable : String := "NetworkUnavailable"

/-- Constant `ConditionTrue` of type `ConditionStatus`, a string type. -/
def ConditionTrue : String := "True"
/-- Constant `ConditionFalse`. -/
def ConditionFalse : String := "False"
/-- Constant `ConditionUnknown`. -/
def ConditionUnknown : String := "Unknown"

/-- Type `NodeCondition`: the fields `Type` and `Status` (the time stamps, `Reason` and
`Message` are read by no code of the repository). -/
structure NodeCondition where
  Type_ : String
  Status : String
  deriving DecidableEq, Repr

/-- Type `NodeStatus`: the field `Conditions`. -/
structure NodeStatus where
  Conditions : List NodeCondition
  deriving DecidableEq, Repr

/-- Type `Node`: the name (field `Name` of the embedded `ObjectMeta`) and the status. -/
structure Node where
  Name : String
  Status : NodeStatus
  deriving DecidableEq, Repr

end v1

/-! ## `pkg/cluster/health` -/

namespace health

/-- Type `Node` of package `health`: data about the nodes of a cluster. -/
structure Node where
  Nodes : List v1.Node
  deriving DecidableEq, Repr

/-- The `switch` of `CheckCondition` on one condition: the value of `nodeUsable` after it, or
the error of the `default` case. -/
def nodeUsable (condition : v1.NodeCondition) : Except GoError Bool :=
  if condition.Type_ = v1.NodeReady then
    .ok (decide (condition.Status = v1.ConditionTrue))
  else if condition.Type_ = v1.NodeDiskPressure ∨ condition.Type_ = v1.NodeMemoryPressure ∨
      condition.Type_ = v1.NodeNetworkUnavailable ∨ condition.Type_ = v1.NodePIDPressure then
    .ok (decide (condition.Status = v1.ConditionFalse))
  else
    .error (GoError.errorf ("unsupported node condition " ++ condition.Type_))

/-- The error of `CheckCondition` for an unusable node; `goSyntax` is the rendering of the
condition list by the verb `%#v` of package `fmt`. -/
def unhealthyError (goSyntax : List v1.NodeCondition → String) (node : v1.Node) : GoError :=
  GoError.errorf ("node is not healthy: condition list for " ++ node.Name ++
    " indicates a problem: " ++ goSyntax node.Status.Conditions)

/-- The inner loop of `CheckCondition` over the conditions of `node` that are still to visit:
`none` when the loop ends without a `return`. -/
def conditionLoop (goSyntax : List v1.NodeCondition → String) (node : v1.Node) :
    List v1.NodeCondition → Option GoError
  | [] => none
  | condition :: rest =>
    match nodeUsable condition with
    | .error e => some e
    | .ok usable =>
      if !usable then some (unhealthyError goSyntax node)
      else conditionLoop goSyntax node rest

/-- The outer loop of `CheckCondition` over the nodes that are still to visit. -/
def nodeLoop (goSyntax : List v1.NodeCondition → String) : List v1.Node → Option GoError
  | [] => none
  | node :: rest =>
    match conditionLoop goSyntax node node.Status.Conditions with
    | some e => some e
    | none => nodeLoop goSyntax rest

/-- Function `CheckCondition(nodeInfo)`: the returned error (`none` is `nil`). -/
def CheckCondition (goSyntax : List v1.NodeCondition → String) (nodeInfo : Node) :
    Option GoError :=
  nodeLoop goSyntax nodeInfo.Nodes

/-- The loop of `Node.String`: `i` is the index of the next node, `total` is
`len(info.Nodes)`, `sb` is the content of the builder. -/
def stringLoop (total : Nat) : Nat → List v1.Node → String → String
  | _, [], sb => sb
  | i, node :: rest, sb =>
    let sb1 := sb ++ "node: " ++ node.Name
    let sb2 := if (i : Int) < (total : Int) - 1 then sb1 ++ ", " else sb1
    stringLoop total (i + 1) rest sb2

/-- Method `Node.String`. -/
def Node.String (info : Node) : String :=
  stringLoop info.Nodes.length 0 info.Nodes ""

/-- The verb `%d` of package `fmt` (and `strconv.Itoa`): an integer in decimal. -/
def fmtD (n : Int) : String :=
  match n with
  | Int.ofNat m => Nat.repr m
  | Int.negSucc m => "-" ++ Nat.repr (m + 1)

/-- Function `KubeletEvictionFsByPercentage(percentage)`. -/
def KubeletEvictionFsByPercentage (percentage : Int) : String × Option GoError :=
  if percentage < 0 ∨ percentage > 100 then
    ("", some (GoError.errorf "percentage must be in rage of 0 and 100"))
  else
    ("imagefs.available<" ++ fmtD percentage ++ "%,nodefs.available<" ++ fmtD percentage ++ "%",
      none)

end health

/-- A condition that is of a recognized kind and healthy, in the words of the specification:
"Ready must be true; DiskPressure, MemoryPressure, NetworkUnavailable, PidPressure must be
false". -/
def specHealthy (c : v1.NodeCondition) : Prop :=
  (c.Type_ = v1.NodeReady ∧ c.Status = v1.ConditionTrue) ∨
    ((c.Type_ = v1.NodeDiskPressure ∨ c.Type_ = v1.NodeMemoryPressure ∨
        c.Type_ = v1.NodeNetworkUnavailable ∨ c.Type_ = v1.NodePIDPressure) ∧
      c.Status = v1.ConditionFalse)

/-- A condition kind that `CheckCondition` recognizes: one of the five kinds of the
specification. -/
def specRecognized (kind : String) : Prop :=
  kind = v1.NodeReady ∨ kind = v1.NodeDiskPressure ∨ kind = v1.NodeMemoryPressure ∨
    kind = v1.NodeNetworkUnavailable ∨ kind = v1.NodePIDPressure

instance (c : v1.NodeCondition) : Decidable (specHealthy c) := by
  unfold specHealthy
  infer_instance

instance (kind : String) : Decidable (specRecognized kind) := by
  unfold specRecognized
  infer_instance

/-! ## Collaborators outside the repository -/

/-- A value of type `*v1alpha5.ClusterConfig` of k3d, identified by a tag. -/
structure ClusterConfig where
  tag : Nat
  deriving DecidableEq, Repr

/-- A value of type `*api.Config` of client-go (a kube config), identified by a tag. -/
structure KubeConfig where
  tag : Nat
  deriving DecidableEq, Repr

/-- A value of type `*rest.Config` of client-go (a client config), identified by a tag. -/
structure RestConfig where
  tag : Nat
  deriving DecidableEq, Repr

/-- A value of type `kubernetes.Interface` of client-go (a client set), identified by a tag. -/
structure ClientSet where
  tag : Nat
  deriving DecidableEq, Repr

/-- A `*v1.ServiceAccount` that the API answers with: the field `Name`, the only one the
repository reads. -/
structure ServiceAccount where
  Name : String
  deriving DecidableEq, Repr

/-- A `*rbacv1.ClusterRole` that the API answers with: the field `Name`, the only one the
repository reads. -/
structure ClusterRole where
  Name : String
  deriving DecidableEq, Repr

/-- The fields of `v1alpha5.SimpleConfig` that `createClusterConfig` computes from its
arguments or from constants of the repository. -/
structure SimpleConfig where
  Name : String
  Image : String
  Servers : Nat
  Agents : Nat
  KubeletArg : String
  HostPort : String
  deriving DecidableEq, Repr

/-- What the code does outside of its own memory, in the order in which it happens: a call
to a collaborator, or the entry into `CreateK3dCluster` or `Terminate`. Logging is left out. -/
inductive Event where
  | enterCreateK3dCluster
  | enterTerminate
  | MustGenerateK8sName (pfx : String)
  | GetFreePort
  | ProcessSimpleConfig (cfg : SimpleConfig)
  | TransformSimpleToClusterConfig (cfg : SimpleConfig)
  | ProcessClusterConfig (cfg : ClusterConfig)
  | ValidateClusterConfig (cfg : ClusterConfig)
  | ClusterRun (cfg : ClusterConfig)
  | KubeconfigGet (cfg : ClusterConfig)
  | ClientConfig (kube : KubeConfig)
  | NewForConfig (rc : RestConfig)
  | CreateServiceAccount (name : String)
  | CreateClusterRole (name : String)
  | CreateClusterRoleBinding (name role account : String)
  | GetServiceAccount (namespace_ name : String)
  | ListNodes
  | ClusterDelete (cfg : ClusterConfig)
  | Sleep
  | TErrorf (msg : String)
  deriving DecidableEq, Repr

/-- The events so far, oldest first. -/
abbrev Trace := List Event

/-- How a Go function ends: it returns, or it panics with a message. -/
inductive Outcome (α : Type) where
  | ret (a : α)
  | panic (msg : String)
  deriving DecidableEq, Repr

/-- A Go function with effects: from the events so far to its outcome and the events after. -/
def Run (α : Type) : Type := Trace → Outcome α × Trace

/-- A function that returns `a` and does nothing else. -/
def Run.pure {α : Type} (a : α) : Run α := fun t => (Outcome.ret a, t)

/-- Sequencing: a panic of the first part ends the whole. -/
def Run.bind {α β : Type} (m : Run α) (f : α → Run β) : Run β := fun t =>
  match m t with
  | (Outcome.ret a, t1) => f a t1
  | (Outcome.panic msg, t1) => (Outcome.panic msg, t1)

/-- The Go statement `panic(msg)`. -/
def panicWith {α : Type} (msg : String) : Run α := fun t => (Outcome.panic msg, t)

/-- Records an event and goes on. -/
def emit (e : Event) : Run Unit := fun t => (Outcome.ret (), t ++ [e])

/-- A call to a collaborator: its answer may depend on everything that happened before. -/
def call {α : Type} (e : Event) (answer : Trace → α) : Run α := fun t =>
  (Outcome.ret (answer t), t ++ [e])

/-- A call to a collaborator that may panic. -/
def callMust {α : Type} (e : Event) (answer : Trace → Outcome α) : Run α := fun t =>
  (answer t, t ++ [e])

/-- The message of the run-time panic of a nil pointer dereference. -/
def nilDereference : String := "runtime error: invalid memory address or nil pointer dereference"

/-- Reading through a pointer (or calling a method of an interface value) that may be nil. -/
def deref {α : Type} (p : Option α) : Run α :=
  match p with
  | some a => Run.pure a
  | none => panicWith nilDereference

/-- The answers of the collaborators. A Go result pair `(*T, error)` that the repository
checks or dereferences itself is a pair of options; the other results are `Except`. -/
structure World where
  /-- The verb `%#v` of package `fmt` on a condition list. -/
  goSyntax : List v1.NodeCondition → String
  /-- Function `naming.MustGenerateK8sName` (package `pkg/naming` is not part of the sources
  at hand). -/
  MustGenerateK8sName : String → Trace → Outcome String
  /-- Function `freeport.GetFreePort`. -/
  GetFreePort : Trace → Except GoError Int
  /-- Function `config.ProcessSimpleConfig`: the processed configuration. -/
  ProcessSimpleConfig : SimpleConfig → Trace → Except GoError SimpleConfig
  /-- Function `config.TransformSimpleToClusterConfig`. -/
  TransformSimpleToClusterConfig : SimpleConfig → Trace → Option ClusterConfig × Option GoError
  /-- Function `config.ProcessClusterConfig`. -/
  ProcessClusterConfig : ClusterConfig → Trace → Option ClusterConfig × Option GoError
  /-- Function `config.ValidateClusterConfig`. -/
  ValidateClusterConfig : ClusterConfig → Trace → Option GoError
  /-- Function `client.ClusterRun`. -/
  ClusterRun : ClusterConfig → Trace → Option GoError
  /-- Function `client.KubeconfigGet`. -/
  KubeconfigGet : ClusterConfig → Trace → Option KubeConfig × Option GoError
  /-- The calls `clientcmd.NewDefaultClientConfig(kubeConfig, nil).ClientConfig()`. -/
  ClientConfig : KubeConfig → Trace → Except GoError RestConfig
  /-- Function `kubernetes.NewForConfig`. -/
  NewForConfig : RestConfig → Trace → Except GoError ClientSet
  /-- Creation of a service account with the given name: the Go result pair, the object the
  API answers with and the error. -/
  CreateServiceAccount : ClientSet → String → Trace → Option ServiceAccount × Option GoError
  /-- Creation of a cluster role with the given name: the object the API answers with and the
  error. -/
  CreateClusterRole : ClientSet → String → Trace → Option ClusterRole × Option GoError
  /-- Creation of a cluster role binding with the given name, for the named cluster role and
  the named service account: the error, if any (the answered object is never read). -/
  CreateClusterRoleBinding : ClientSet → String → String → String → Trace → Option GoError
  /-- Lookup of a service account by namespace and name: the error, if any. -/
  GetServiceAccount : ClientSet → String → String → Trace → Option GoError
  /-- Listing of the nodes: the items of the list. -/
  ListNodes : ClientSet → Trace → Except GoError (List v1.Node)
  /-- Function `client.ClusterDelete`. -/
  ClusterDelete : ClusterConfig → Trace → Option GoError

/-- Modelled from the spec: `retry.OnError` of client-go over `wait.ExponentialBackoff` with
`steps` steps, which the repository only calls (section 4.3: the predicate is invoked
repeatedly; `nil` stops with success, an error that the classifier does not call retriable
stops and is propagated, the prober sleeps between attempts and counts them against the step
budget, and an exhausted budget fails with the last observed error). `σ` is the state of the
variables that the closures capture; `lastErr` is the last retriable error. -/
def OnErrorLoop {σ : Type} (retriable : σ → GoError → Bool)
    (fn : σ → Run (Option GoError × σ)) : Nat → σ → Option GoError → Run (Option GoError × σ)
  | 0, s, lastErr => Run.pure (lastErr, s)
  | steps + 1, s, _ =>
    Run.bind (fn s) fun r =>
      match r.1 with
      | none => Run.pure (none, r.2)
      | some err =>
        if !retriable r.2 err then Run.pure (some err, r.2)
        else if steps = 0 then Run.pure (some err, r.2)
        else Run.bind (emit Event.Sleep) fun _ => OnErrorLoop retriable fn steps r.2 (some err)

/-- Modelled from the spec: `retry.OnError(backoff, retriable, fn)` with `backoff.Steps = steps`
(see `OnErrorLoop`). -/
def OnError {σ : Type} (steps : Nat) (retriable : σ → GoError → Bool)
    (fn : σ → Run (Option GoError × σ)) (s : σ) : Run (Option GoError × σ) :=
  OnErrorLoop retriable fn steps s none

/-! ## `pkg/cluster/health`: fetching the nodes -/

namespace health

/-- Function `FetchNodeInfo(ctx, clientset)`. The test `err != nil` on the named result,
which is still `nil` there, never fires. -/
def FetchNodeInfo (w : World) (clientset : Option ClientSet) :
    Run (Option Node × Option GoError) :=
  match clientset with
  | none => Run.pure (none, some (GoError.errorf "clientset must not be nil"))
  | some cs =>
    Run.bind (call Event.ListNodes (w.ListNodes cs)) fun r =>
      match r with
      | .error err => Run.pure (none, some (GoError.wrapf "could not list nodes: " err))
      | .ok items =>
        if items.length = 0 then
          Run.pure (none, some (GoError.errorf ("could not return node info because no node " ++
            "was found (was it killed in the meantime?)")))
        else Run.pure (some ⟨items⟩, none)

end health

/-! ## `pkg/cluster/cluster.go`: the life cycle of a cluster -/

/-- Constant `DefaultNamespace`. -/
def DefaultNamespace : String := "default"

/-- Constant `K3sVersion1_28`. -/
def K3sVersion1_28 : String := "v1.28.2-k3s1"

/-- Constant `k3dTypes.DefaultK3sImageRepo` of k3d. -/
def DefaultK3sImageRepo : String := "docker.io/rancher/k3s"

/-- Type `Loglevel`. -/
inductive Loglevel where
  | Error
  | Warning
  | Info
  | Debug
  deriving DecidableEq, Repr

/-- Type `Opts`. -/
structure Opts where
  ClusterNamePrefix : String
  LogLevel : Loglevel
  NodeConditionEvictionHardArg : String
  deriving DecidableEq, Repr

/-- Type `K3dCluster`; a pointer or interface field that is `nil` is `none`. The field
`containerRuntime`, always the selected runtime of k3d, is left out. -/
structure K3dCluster where
  clusterConfig : Option ClusterConfig
  kubeConfig : Option KubeConfig
  clientConfig : Option RestConfig
  ClusterName : String
  AdminServiceAccount : String
  clientSet : Option ClientSet
  deriving DecidableEq, Repr

/-- Type `NodeHealthCheckOpts`. -/
structure NodeHealthCheckOpts where
  SkipCheck : Bool
  deriving DecidableEq, Repr

/-- Function `strings.Contains`. -/
def stringsContains (s sub : String) : Bool := decide (sub.data <:+: s.data)

/-- Method `ClientSet` of `K3dCluster`: `return c.clientSet, nil`. -/
def K3dCluster.ClientSet (c : K3dCluster) : Option ClientSet × Option GoError :=
  (c.clientSet, none)

/-- Method `Terminate` of `K3dCluster`; `&c.clusterConfig.Cluster` reads through
`c.clusterConfig`. -/
def K3dCluster.Terminate (w : World) (c : K3dCluster) : Run (Option GoError) :=
  Run.bind (emit Event.enterTerminate) fun _ =>
  Run.bind (deref c.clusterConfig) fun cfg =>
  Run.bind (call (Event.ClusterDelete cfg) (w.ClusterDelete cfg)) fun err =>
    match err with
    | some e => Run.pure (some e)
    | none => Run.pure none

/-- Function `panicAtStartError(ctx, cluster, err)`: both paths end in `panic(err.Error())`. -/
def panicAtStartError (w : World) (cluster : Option K3dCluster) (err : GoError) :
    Run (Option GoError) :=
  match cluster with
  | none => panicWith err.Error
  | some c =>
    Run.bind (c.Terminate w) fun _err2 => panicWith err.Error

/-- Function `createClusterConfig(ctx, clusterName, opts)`. -/
def createClusterConfig (w : World) (clusterName : String) (opts : Opts) :
    Run (Option ClusterConfig × Option GoError) :=
  Run.bind (call Event.GetFreePort w.GetFreePort) fun port =>
    match port with
    | .error err =>
      Run.pure (none, some (GoError.wrapf "could not find free port for port-forward: " err))
    | .ok freeHostPort =>
      let simpleConfig : SimpleConfig :=
        { Name := clusterName
          Image := DefaultK3sImageRepo ++ ":" ++ K3sVersion1_28
          Servers := 1
          Agents := 0
          KubeletArg := "--kubelet-arg=eviction-hard=" ++ opts.NodeConditionEvictionHardArg
          HostPort := health.fmtD freeHostPort }
      Run.bind (call (Event.ProcessSimpleConfig simpleConfig)
          (w.ProcessSimpleConfig simpleConfig)) fun r1 =>
        match r1 with
        | .error err =>
          Run.pure (none, some (GoError.wrapf "processing simple cluster config failed: " err))
        | .ok processed =>
          Run.bind (call (Event.TransformSimpleToClusterConfig processed)
              (w.TransformSimpleToClusterConfig processed)) fun r2 =>
            match r2.2 with
            | some err =>
              Run.pure (none, some (GoError.wrapf "failed to transform cluster config: " err))
            | none =>
              Run.bind (deref r2.1) fun clusterConfig =>
              Run.bind (call (Event.ProcessClusterConfig clusterConfig)
                  (w.ProcessClusterConfig clusterConfig)) fun r3 =>
                match r3.2 with
                | some err =>
                  Run.pure (none, some (GoError.wrapf "processing cluster config failed: " err))
                | none =>
                  Run.bind (deref r3.1) fun clusterConfig2 =>
                  Run.bind (call (Event.ValidateClusterConfig clusterConfig2)
                      (w.ValidateClusterConfig clusterConfig2)) fun err =>
                    match err with
                    | some err =>
                      Run.pure (none,
                        some (GoError.wrapf "failed cluster config validation: " err))
                    | none => Run.pure (some clusterConfig2, none)

/-- Function `initializeClientSet(c)`: the handle after the call and the returned error. -/
def initializeClientSet (w : World) (c : K3dCluster) : Run (K3dCluster × Option GoError) :=
  match c.kubeConfig with
  | none => panicWith "cluster kubeConfig went unexpectedly nil"
  | some kube =>
    Run.bind (call (Event.ClientConfig kube) (w.ClientConfig kube)) fun r1 =>
      match r1 with
      | .error err => Run.pure (c, some (GoError.wrapf "failed to get client config: " err))
      | .ok clientConfig =>
        let c1 : K3dCluster := { c with clientConfig := some clientConfig }
        Run.bind (call (Event.NewForConfig clientConfig) (w.NewForConfig clientConfig)) fun r2 =>
          match r2 with
          | .error err => Run.pure (c1, some (GoError.wrapf "failed to create clientset: " err))
          | .ok clientSet => Run.pure ({ c1 with clientSet := some clientSet }, none)

/-- Function `createDefaultRBACForSA(ctx, c)`. The variables `sa` and `clusterRole` are
overwritten with the objects the API answers with; the binding refers to `clusterRole.Name`
and `sa.Name` of these objects, and `sa.Name` is returned. -/
def createDefaultRBACForSA (w : World) (c : K3dCluster) : Run (String × Option GoError) :=
  let globalGalacticClusterAdminSuffix := "ford-prefect"
  match c.ClientSet.2 with
  | some err => Run.pure ("", some err)
  | none =>
    Run.bind (deref c.ClientSet.1) fun clientSet =>
    Run.bind (call (Event.CreateServiceAccount ("sa-" ++ globalGalacticClusterAdminSuffix))
        (w.CreateServiceAccount clientSet ("sa-" ++ globalGalacticClusterAdminSuffix))) fun r1 =>
      match r1.2 with
      | some err => Run.pure ("", some err)
      | none =>
        Run.bind (call (Event.CreateClusterRole ("cr-" ++ globalGalacticClusterAdminSuffix))
            (w.CreateClusterRole clientSet ("cr-" ++ globalGalacticClusterAdminSuffix))) fun r2 =>
          match r2.2 with
          | some err => Run.pure ("", some err)
          | none =>
            Run.bind (deref r2.1) fun clusterRole =>
            Run.bind (deref r1.1) fun sa =>
            Run.bind (call
                (Event.CreateClusterRoleBinding ("crb-" ++ globalGalacticClusterAdminSuffix)
                  clusterRole.Name sa.Name)
                (w.CreateClusterRoleBinding clientSet
                  ("crb-" ++ globalGalacticClusterAdminSuffix) clusterRole.Name sa.Name)) fun err3 =>
              match err3 with
              | some err => Run.pure ("", some err)
              | none => Run.pure (sa.Name, none)

/-- The step budget of `waitForDefaultSACreation`: field `Steps` of its `wait.Backoff`. -/
def defaultSASteps : Nat := 20

/-- The function that `waitForDefaultSACreation` retries; the state is the captured variable
`errRetriable`. -/
def lookupDefaultSA (w : World) (c : K3dCluster) (errRetriable : Bool) :
    Run (Option GoError × Bool) :=
  match c.ClientSet.2 with
  | some err => Run.pure (some err, false)
  | none =>
    Run.bind (deref c.ClientSet.1) fun clientset =>
    Run.bind (call (Event.GetServiceAccount DefaultNamespace "default")
        (w.GetServiceAccount clientset DefaultNamespace "default")) fun err =>
      match err with
      | some err => Run.pure (some err, errRetriable)
      | none => Run.pure (none, true)

/-- Method `waitForDefaultSACreation` of `K3dCluster`. -/
def K3dCluster.waitForDefaultSACreation (w : World) (c : K3dCluster) : Run (Option GoError) :=
  Run.bind (OnError defaultSASteps (fun errRetriable _ => errRetriable) (lookupDefaultSA w c)
      true) fun r =>
    match r.1 with
    | some err => Run.pure (some (GoError.wrapf "waited too long for default SA: " err))
    | none => Run.pure none

/-- Method `checkNodeHealth` of `K3dCluster`. -/
def K3dCluster.checkNodeHealth (w : World) (c : K3dCluster) (opts : NodeHealthCheckOpts) :
    Run (Option GoError) :=
  if opts.SkipCheck then Run.pure none
  else
    Run.bind (health.FetchNodeInfo w c.clientSet) fun r =>
      match r.2 with
      | some err => Run.pure (some err)
      | none =>
        Run.bind (deref r.1) fun nodeInfo =>
          match health.CheckCondition w.goSyntax nodeInfo with
          | some err => Run.pure (some err)
          | none => Run.pure none

/-- Function `CreateK3dCluster(ctx, opts)`: the returned pair `(cl, err)`. The cluster config
is read through its pointer by `ClusterRun` and by `&cl.clusterConfig.Cluster`; it is not nil
there, since `createClusterConfig` has dereferenced it before returning without an error. -/
def CreateK3dCluster (w : World) (opts : Opts) : Run (Option K3dCluster × Option GoError) :=
  Run.bind (emit Event.enterCreateK3dCluster) fun _ =>
  Run.bind (callMust (Event.MustGenerateK8sName opts.ClusterNamePrefix)
      (w.MustGenerateK8sName opts.ClusterNamePrefix)) fun clusterName =>
  Run.bind (createClusterConfig w clusterName opts) fun r0 =>
    let cl0 : K3dCluster :=
      { clusterConfig := r0.1, kubeConfig := none, clientConfig := none,
        ClusterName := clusterName, AdminServiceAccount := "", clientSet := none }
    match r0.2 with
    | some err => Run.pure (none, some err)
    | none =>
      Run.bind (deref cl0.clusterConfig) fun cfg =>
      Run.bind (call (Event.ClusterRun cfg) (w.ClusterRun cfg)) fun err1 =>
        match err1 with
        | some err => Run.bind (panicAtStartError w (some cl0) err) fun e => Run.pure (none, e)
        | none =>
          Run.bind (call (Event.KubeconfigGet cfg) (w.KubeconfigGet cfg)) fun r2 =>
            let cl1 : K3dCluster := { cl0 with kubeConfig := r2.1 }
            match r2.2 with
            | some err => Run.bind (panicAtStartError w (some cl1) err) fun e => Run.pure (none, e)
            | none =>
              Run.bind (initializeClientSet w cl1) fun r3 =>
                match r3.2 with
                | some err =>
                  Run.bind (panicAtStartError w (some r3.1)
                    (GoError.wrapf "failed to initialize clientset: " err)) fun e =>
                    Run.pure (none, e)
                | none =>
                  Run.bind (createDefaultRBACForSA w r3.1) fun r4 =>
                    match r4.2 with
                    | some err =>
                      Run.bind (panicAtStartError w (some r3.1)
                        (GoError.wrapf "failed to create default RBAC for SA: " err)) fun e =>
                        Run.pure (some r3.1, e)
                    | none =>
                      let cl4 : K3dCluster := { r3.1 with AdminServiceAccount := r4.1 }
                      Run.bind (cl4.waitForDefaultSACreation w) fun err5 =>
                        match err5 with
                        | some err =>
                          Run.bind (panicAtStartError w (some cl4) (GoError.wrapf
                            "failed to wait for default service account: " err)) fun e =>
                            Run.pure (some cl4, e)
                        | none =>
                          Run.bind (cl4.checkNodeHealth w ⟨false⟩) fun err6 =>
                            match err6 with
                            | some err =>
                              Run.bind (panicAtStartError w (some cl4) (GoError.wrapf
                                "failed to check node health: " err)) fun e =>
                                Run.pure (some cl4, e)
                            | none => Run.pure (some cl4, none)

/-- Function `mustSetupCluster(t, opts)`, from draw number `i` of the random source: the
returned handle. -/
def mustSetupCluster (w : World) (src : RandSource) (i : Nat) (opts : Opts) :
    Run (Option K3dCluster) :=
  let validated := (validateClusterNamePrefix src i opts.ClusterNamePrefix).1
  let checked : Run Unit :=
    match validated.2 with
    | some err => Run.bind (panicAtStartError w none err) fun _ => Run.pure ()
    | none => Run.pure ()
  Run.bind checked fun _ =>
    let opts1 : Opts := { opts with ClusterNamePrefix := validated.1 }
    Run.bind (CreateK3dCluster w opts1) fun r =>
      match r.2 with
      | some err =>
        if stringsContains err.Error "port is already allocated" then
          Run.bind (panicAtStartError w r.1 err) fun _ => Run.pure none
        else
          Run.bind (emit (Event.TErrorf
            ("Unexpected error during test setup: " ++ err.Error ++ "\n"))) fun _ =>
          Run.bind (panicAtStartError w r.1 err) fun _ => Run.pure none
      | none => Run.pure r.1

/-- The body of `CreateK3dCluster` with the function that it calls where the source calls
`panicAtStartError` as a parameter (`CreateK3dCluster` is the instance at
`panicAtStartError`); it serves to say which handles reach that function. -/
def CreateK3dClusterWith (rollback : Option K3dCluster → GoError → Run (Option GoError))
    (w : World) (opts : Opts) : Run (Option K3dCluster × Option GoError) :=
  Run.bind (emit Event.enterCreateK3dCluster) fun _ =>
  Run.bind (callMust (Event.MustGenerateK8sName opts.ClusterNamePrefix)
      (w.MustGenerateK8sName opts.ClusterNamePrefix)) fun clusterName =>
  Run.bind (createClusterConfig w clusterName opts) fun r0 =>
    let cl0 : K3dCluster :=
      { clusterConfig := r0.1, kubeConfig := none, clientConfig := none,
        ClusterName := clusterName, AdminServiceAccount := "", clientSet := none }
    match r0.2 with
    | some err => Run.pure (none, some err)
    | none =>
      Run.bind (deref cl0.clusterConfig) fun cfg =>
      Run.bind (call (Event.ClusterRun cfg) (w.ClusterRun cfg)) fun err1 =>
        match err1 with
        | some err => Run.bind (rollback (some cl0) err) fun e => Run.pure (none, e)
        | none =>
          Run.bind (call (Event.KubeconfigGet cfg) (w.KubeconfigGet cfg)) fun r2 =>
            let cl1 : K3dCluster := { cl0 with kubeConfig := r2.1 }
            match r2.2 with
            | some err => Run.bind (rollback (some cl1) err) fun e => Run.pure (none, e)
            | none =>
              Run.bind (initializeClientSet w cl1) fun r3 =>
                match r3.2 with
                | some err =>
                  Run.bind (rollback (some r3.1)
                    (GoError.wrapf "failed to initialize clientset: " err)) fun e =>
                    Run.pure (none, e)
                | none =>
                  Run.bind (createDefaultRBACForSA w r3.1) fun r4 =>
                    match r4.2 with
                    | some err =>
                      Run.bind (rollback (some r3.1)
                        (GoError.wrapf "failed to create default RBAC for SA: " err)) fun e =>
                        Run.pure (some r3.1, e)
                    | none =>
                      let cl4 : K3dCluster := { r3.1 with AdminServiceAccount := r4.1 }
                      Run.bind (cl4.waitForDefaultSACreation w) fun err5 =>
                        match err5 with
                        | some err =>
                          Run.bind (rollback (some cl4) (GoError.wrapf
                            "failed to wait for default service account: " err)) fun e =>
                            Run.pure (some cl4, e)
                        | none =>
                          Run.bind (cl4.checkNodeHealth w ⟨false⟩) fun err6 =>
                            match err6 with
                            | some err =>
                              Run.bind (rollback (some cl4) (GoError.wrapf
                                "failed to check node health: " err)) fun e =>
                                Run.pure (some cl4, e)
                            | none => Run.pure (some cl4, none)

/-- The body of `mustSetupCluster` with the function that it calls where the source calls
`panicAtStartError` as a parameter (`mustSetupCluster` is the instance at
`panicAtStartError`). -/
def mustSetupClusterWith (rollback : Option K3dCluster → GoError → Run (Option GoError))
    (w : World) (src : RandSource) (i : Nat) (opts : Opts) :
    Run (Option K3dCluster) :=
  let validated := (validateClusterNamePrefix src i opts.ClusterNamePrefix).1
  let checked : Run Unit :=
    match validated.2 with
    | some err => Run.bind (rollback none err) fun _ => Run.pure ()
    | none => Run.pure ()
  Run.bind checked fun _ =>
    let opts1 : Opts := { opts with ClusterNamePrefix := validated.1 }
    Run.bind (CreateK3dCluster w opts1) fun r =>
      match r.2 with
      | some err =>
        if stringsContains err.Error "port is already allocated" then
          Run.bind (rollback r.1 err) fun _ => Run.pure none
        else
          Run.bind (emit (Event.TErrorf
            ("Unexpected error during test setup: " ++ err.Error ++ "\n"))) fun _ =>
          Run.bind (rollback r.1 err) fun _ => Run.pure none
      | none => Run.pure r.1

/-- The number that a decimal numeral denotes. -/
def decimalValue (cs : List Char) : Nat :=
  cs.foldl (fun n d => 10 * n + (d.toNat - '0'.toNat)) 0

/-- The number of lookups of a service account among the events. -/
def lookups (t : Trace) : Nat :=
  t.countP fun e =>
    match e with
    | Event.GetServiceAccount _ _ => true
    | _ => false

/-- An example of a world: every collaborator succeeds, except that the first `failures`
lookups of a service account fail; the API answers a creation with the object under the
submitted name; the cluster has the nodes `nodes`. -/
def exampleWorld (failures : Nat) (nodes : List v1.Node) : World where
  goSyntax := fun _ => "conditions"
  MustGenerateK8sName := fun pfx _ => Outcome.ret (pfx ++ "-0a1b2c3d")
  GetFreePort := fun _ => .ok 41234
  ProcessSimpleConfig := fun cfg _ => .ok cfg
  TransformSimpleToClusterConfig := fun _ _ => (some ⟨1⟩, none)
  ProcessClusterConfig := fun _ _ => (some ⟨2⟩, none)
  ValidateClusterConfig := fun _ _ => none
  ClusterRun := fun _ _ => none
  KubeconfigGet := fun _ _ => (some ⟨3⟩, none)
  ClientConfig := fun _ _ => .ok ⟨4⟩
  NewForConfig := fun _ _ => .ok ⟨5⟩
  CreateServiceAccount := fun _ name _ => (some ⟨name⟩, none)
  CreateClusterRole := fun _ name _ => (some ⟨name⟩, none)
  CreateClusterRoleBinding := fun _ _ _ _ _ => none
  GetServiceAccount := fun _ _ _ t =>
    if lookups t < failures then
      some (GoError.errorf ("serviceaccounts not found, lookup " ++ health.fmtD (lookups t)))
    else none
  ListNodes := fun _ _ => .ok nodes
  ClusterDelete := fun _ _ => none

/-! ## Theorems: the cluster name prefix -/

/-- The pattern of the repository compiles: `{1..37}` is no repetition, so its brace is a
literal, followed by the literal `1`, two arbitrary characters and the literals `37}`. -/
theorem restrictedContainerNamePattern_compiles :
    regexp.Compile ("^" ++ restrictedContainerNameChars ++ "$") = some parsedContainerNamePattern := by
  decide

/-- The compiled pattern of the repository. -/
theorem restrictedContainerNamePattern_eq :
    restrictedContainerNamePattern = parsedContainerNamePattern := by
  decide

/-- The pattern `{1,37}` compiles to a repetition. -/
theorem intendedContainerNamePattern_compiles :
    intendedContainerNamePattern =
      [regexp.Piece.single .beginText,
        regexp.Piece.single (.charClass false [('a', 'z'), ('A', 'Z'), ('0', '9')]),
        ⟨.charClass false [('a', 'z'), ('A', 'Z'), ('0', '9'), ('_', '_'), ('.', '.'), ('-', '-')],
          1, some 37⟩,
        regexp.Piece.single .endText] := by
  decide

/-- The pattern of the repository does match some strings: those of nine characters whose
third to ninth characters are `{1`, two arbitrary characters and `37}`. -/
theorem restrictedContainerNamePattern_matches_some :
    regexp.MatchString restrictedContainerNamePattern "ab\x7b1xy37\x7d" = true := by
  decide

/-- A pattern that starts with `^` matches nowhere after the beginning of the text. -/
theorem searchFrom_beginText_later (re : List regexp.Piece) (s : List Char) :
    regexp.searchFrom (regexp.Piece.single .beginText :: re) false s = false := by
  induction s with
  | nil => rfl
  | cons c cs ih =>
    show (regexp.matchPieces (regexp.Piece.single .beginText :: re) false (c :: cs) ||
      regexp.searchFrom (regexp.Piece.single .beginText :: re) false cs) = false
    rw [ih]
    rfl

/-- The pattern of the repository matches no string that starts with the marker `tc-`: the
third character would have to be an opening brace. -/
theorem restrictedContainerNamePattern_rejects_marker (p : String) :
    regexp.MatchString restrictedContainerNamePattern (defaultPrefix ++ p) = false := by
  have hdata : (defaultPrefix ++ p).data = 't' :: 'c' :: '-' :: p.data := by
    simp [defaultPrefix, String.data_append]
  unfold regexp.MatchString
  rw [hdata, restrictedContainerNamePattern_eq]
  show (regexp.matchPieces parsedContainerNamePattern true ('t' :: 'c' :: '-' :: p.data) ||
    regexp.searchFrom (regexp.Piece.single .beginText :: _) false ('c' :: '-' :: p.data)) = false
  rw [searchFrom_beginText_later]
  rfl

/-- For every non-empty prefix `validateClusterNamePrefix` returns the empty string and the
error that names the total prefix and the pattern. -/
theorem validateClusterNamePrefix_nonempty (src : RandSource) (i : Nat) (p : String)
    (hp : p ≠ "") :
    validateClusterNamePrefix src i p =
      (("", some (GoError.errorf (invalidPrefixMessage (defaultPrefix ++ p)))), i + 6) := by
  simp [validateClusterNamePrefix, hp, restrictedContainerNamePattern_rejects_marker,
    generatePseudoPrefix]

/-- The loop of `generatePseudoPrefix` fills exactly the requested number of bytes. -/
theorem fillBytes_length (src : RandSource) (n i : Nat) : (fillBytes src n i).length = n := by
  induction n generalizing i with
  | zero => rfl
  | succ n ih => simp [fillBytes, ih]

/-- Every byte the loop of `generatePseudoPrefix` writes is taken from `letterBytes`. -/
theorem fillBytes_mem (src : RandSource) (n i : Nat) : ∀ c ∈ fillBytes src n i, c ∈ letterBytes := by
  induction n generalizing i with
  | zero => simp [fillBytes]
  | succ n ih =>
    intro c hc
    simp only [fillBytes, List.mem_cons] at hc
    rcases hc with rfl | hc
    · exact List.get_mem _ _ _
    · exact ih _ c hc

/-- C1 (defect of the code): the prefix `abc` gives the total prefix `tc-abc`, which is
well-formed in the grammar of the specification and matches the pattern with the repetition
`{1,37}`; yet `validateClusterNamePrefix` returns the empty string and an error for it,
whatever the random source does. -/
theorem validateClusterNamePrefix_rejects_wellformed :
    specWellFormed (defaultPrefix ++ "abc") = true ∧
    regexp.MatchString intendedContainerNamePattern (defaultPrefix ++ "abc") = true ∧
    ∀ (src : RandSource) (i : Nat),
      (validateClusterNamePrefix src i "abc").1 =
        ("", some (GoError.errorf ("total cluster name prefix 'tc-abc' looks invalid " ++
          "(valid pattern: [a-zA-Z0-9][a-zA-Z0-9_.-]\x7b1..37\x7d)"))) := by
  refine ⟨by decide, by decide, fun src i => ?_⟩
  have hmsg : invalidPrefixMessage (defaultPrefix ++ "abc") =
      "total cluster name prefix 'tc-abc' looks invalid " ++
        "(valid pattern: [a-zA-Z0-9][a-zA-Z0-9_.-]\x7b1..37\x7d)" := by decide
  rw [validateClusterNamePrefix_nonempty src i "abc" (by decide), hmsg]

/-- C2: for every non-empty prefix `p` whose total prefix `tc-` + `p` violates the grammar,
`validateClusterNamePrefix` returns the empty string and an error whose message contains the
total prefix and the expected pattern. -/
theorem validateClusterNamePrefix_invalid (src : RandSource) (i : Nat) (p : String)
    (hp : p ≠ "") (_hbad : specWellFormed (defaultPrefix ++ p) = false) :
    ∃ e : GoError, (validateClusterNamePrefix src i p).1 = ("", some e) ∧
      Contains e.Error (defaultPrefix ++ p) ∧ Contains e.Error restrictedContainerNameChars := by
  refine ⟨GoError.errorf (invalidPrefixMessage (defaultPrefix ++ p)), ?_, ?_, ?_⟩
  · rw [validateClusterNamePrefix_nonempty src i p hp]
  · exact ⟨"total cluster name prefix '".data,
      ("' looks invalid (valid pattern: " ++ restrictedContainerNameChars ++ ")").data,
      by simp [GoError.Error, invalidPrefixMessage, String.data_append]⟩
  · exact ⟨("total cluster name prefix '" ++ (defaultPrefix ++ p) ++
        "' looks invalid (valid pattern: ").data, ")".data,
      by simp [GoError.Error, invalidPrefixMessage, String.data_append]⟩

/-- C2 at the prefix `a/b`, which contains a slash. -/
theorem validateClusterNamePrefix_invalid_witness :
    ∃ e : GoError, (validateClusterNamePrefix (fun _ => 0) 0 "a/b").1 = ("", some e) ∧
      Contains e.Error (defaultPrefix ++ "a/b") ∧ Contains e.Error restrictedContainerNameChars :=
  validateClusterNamePrefix_invalid (fun _ => 0) 0 "a/b" (by decide) (by decide)

/-- C10: for the empty prefix `validateClusterNamePrefix` returns no error and the marker `tc-`
followed by exactly six characters, each a lowercase letter or a digit, whatever the random
source draws. -/
theorem validateClusterNamePrefix_empty (src : RandSource) (i : Nat) :
    ∃ g : List Char, (validateClusterNamePrefix src i "").1 = (defaultPrefix ++ String.mk g, none) ∧
      g.length = 6 ∧ ∀ c ∈ g, ('a' ≤ c ∧ c ≤ 'z') ∨ ('0' ≤ c ∧ c ≤ '9') := by
  refine ⟨fillBytes src 6 i, ?_, fillBytes_length src 6 i, fun c hc => ?_⟩
  · simp [validateClusterNamePrefix, generatePseudoPrefix]
  · have hall : ∀ d ∈ letterBytes, ('a' ≤ d ∧ d ≤ 'z') ∨ ('0' ≤ d ∧ d ≤ '9') := by decide
    exact hall c (fillBytes_mem src 6 i c hc)

/-! ## Theorems: node health -/

/-- The `switch` of `CheckCondition` leaves `nodeUsable` true exactly for the conditions that
are of a recognized kind and healthy. -/
theorem nodeUsable_ok_true_iff (c : v1.NodeCondition) :
    health.nodeUsable c = .ok true ↔ specHealthy c := by
  unfold health.nodeUsable specHealthy
  by_cases h1 : c.Type_ = v1.NodeReady
  · have hne : ¬(v1.NodeReady = v1.NodeDiskPressure ∨ v1.NodeReady = v1.NodeMemoryPressure ∨
        v1.NodeReady = v1.NodeNetworkUnavailable ∨ v1.NodeReady = v1.NodePIDPressure) := by
      decide
    simp [h1, hne]
  · by_cases h2 : c.Type_ = v1.NodeDiskPressure ∨ c.Type_ = v1.NodeMemoryPressure ∨
        c.Type_ = v1.NodeNetworkUnavailable ∨ c.Type_ = v1.NodePIDPressure
    · simp [h1, h2]
    · simp [h1, h2]

/-- The `switch` of `CheckCondition` returns the unsupported-condition error exactly for the
kinds that are not recognized. -/
theorem nodeUsable_unrecognized (c : v1.NodeCondition) (h : ¬specRecognized c.Type_) :
    health.nodeUsable c = .error (GoError.errorf ("unsupported node condition " ++ c.Type_)) := by
  unfold specRecognized at h
  unfold health.nodeUsable
  have h1 : c.Type_ ≠ v1.NodeReady := fun e => h (Or.inl e)
  have h2 : ¬(c.Type_ = v1.NodeDiskPressure ∨ c.Type_ = v1.NodeMemoryPressure ∨
      c.Type_ = v1.NodeNetworkUnavailable ∨ c.Type_ = v1.NodePIDPressure) :=
    fun e => h (Or.inr e)
  simp [h1, h2]

/-- The inner loop of `CheckCondition` ends without an error exactly when every condition it
visits is recognized and healthy. -/
theorem conditionLoop_none_iff (goSyntax : List v1.NodeCondition → String) (node : v1.Node)
    (cs : List v1.NodeCondition) :
    health.conditionLoop goSyntax node cs = none ↔ ∀ c ∈ cs, specHealthy c := by
  induction cs with
  | nil => simp [health.conditionLoop]
  | cons c rest ih =>
    rw [List.forall_mem_cons, ← ih, ← nodeUsable_ok_true_iff]
    have hcons : health.conditionLoop goSyntax node (c :: rest) =
        match health.nodeUsable c with
        | .error e => some e
        | .ok usable =>
          if !usable then some (health.unhealthyError goSyntax node)
          else health.conditionLoop goSyntax node rest := rfl
    rw [hcons]
    cases hu : health.nodeUsable c with
    | error e => simp
    | ok usable => cases usable <;> simp

/-- The outer loop of `CheckCondition` ends without an error exactly when every condition of
every node it visits is recognized and healthy. -/
theorem nodeLoop_none_iff (goSyntax : List v1.NodeCondition → String) (ns : List v1.Node) :
    health.nodeLoop goSyntax ns = none ↔
      ∀ node ∈ ns, ∀ c ∈ node.Status.Conditions, specHealthy c := by
  induction ns with
  | nil => simp [health.nodeLoop]
  | cons n rest ih =>
    rw [List.forall_mem_cons, ← ih, ← conditionLoop_none_iff goSyntax n]
    have hcons : health.nodeLoop goSyntax (n :: rest) =
        match health.conditionLoop goSyntax n n.Status.Conditions with
        | some e => some e
        | none => health.nodeLoop goSyntax rest := rfl
    rw [hcons]
    cases hc : health.conditionLoop goSyntax n n.Status.Conditions <;> simp

/-- The inner loop of `CheckCondition` passes healthy conditions by. -/
theorem conditionLoop_append (goSyntax : List v1.NodeCondition → String) (node : v1.Node)
    (pre rest : List v1.NodeCondition) (hpre : ∀ d ∈ pre, specHealthy d) :
    health.conditionLoop goSyntax node (pre ++ rest) = health.conditionLoop goSyntax node rest := by
  induction pre with
  | nil => rfl
  | cons d pre ih =>
    have hd := (nodeUsable_ok_true_iff d).mpr (hpre d (List.mem_cons_self _ _))
    have := ih fun e he => hpre e (List.mem_cons_of_mem _ he)
    simp [health.conditionLoop, hd, this]

/-- The outer loop of `CheckCondition` passes nodes by whose conditions are all healthy. -/
theorem nodeLoop_append (goSyntax : List v1.NodeCondition → String)
    (before rest : List v1.Node)
    (hbefore : ∀ n ∈ before, ∀ d ∈ n.Status.Conditions, specHealthy d) :
    health.nodeLoop goSyntax (before ++ rest) = health.nodeLoop goSyntax rest := by
  induction before with
  | nil => rfl
  | cons n before ih =>
    have hn := (conditionLoop_none_iff goSyntax n n.Status.Conditions).mpr
      (hbefore n (List.mem_cons_self _ _))
    have := ih fun m hm => hbefore m (List.mem_cons_of_mem _ hm)
    simp [health.nodeLoop, hn, this]

/-- C3: `CheckCondition` returns no error if and only if every condition of every node is of
a recognized kind and healthy (Ready with status True; DiskPressure, MemoryPressure,
NetworkUnavailable or PIDPressure with status False); in particular a condition with status
Unknown is unhealthy for each of the five kinds. -/
theorem CheckCondition_none_iff (goSyntax : List v1.NodeCondition → String)
    (nodeInfo : health.Node) :
    (health.CheckCondition goSyntax nodeInfo = none ↔
      ∀ node ∈ nodeInfo.Nodes, ∀ c ∈ node.Status.Conditions, specHealthy c) ∧
    ∀ kind ∈ [v1.NodeReady, v1.NodeDiskPressure, v1.NodeMemoryPressure,
        v1.NodeNetworkUnavailable, v1.NodePIDPressure],
      ¬specHealthy ⟨kind, v1.ConditionUnknown⟩ := by
  refine ⟨nodeLoop_none_iff goSyntax nodeInfo.Nodes, ?_⟩
  intro kind _ h
  have hT : v1.ConditionUnknown ≠ v1.ConditionTrue := by decide
  have hF : v1.ConditionUnknown ≠ v1.ConditionFalse := by decide
  rcases h with ⟨_, h⟩ | ⟨_, h⟩
  · exact hT h
  · exact hF h

/-- C4 as stated fails: on a node whose conditions are an unhealthy Ready condition followed
by a condition of the unrecognized kind `Foo`, `CheckCondition` returns the node-unhealthy
error, not the unsupported-condition error. -/
theorem CheckCondition_unhealthy_before_unrecognized :
    ¬specRecognized "Foo" ∧
    health.CheckCondition (fun _ => "conditions")
        ⟨[⟨"n1", ⟨[⟨v1.NodeReady, v1.ConditionFalse⟩, ⟨"Foo", v1.ConditionTrue⟩]⟩⟩]⟩ =
      some (GoError.errorf
        "node is not healthy: condition list for n1 indicates a problem: conditions") ∧
    health.CheckCondition (fun _ => "conditions")
        ⟨[⟨"n1", ⟨[⟨v1.NodeReady, v1.ConditionFalse⟩, ⟨"Foo", v1.ConditionTrue⟩]⟩⟩]⟩ ≠
      some (GoError.errorf "unsupported node condition Foo") := by
  decide

/-- C4, amended: when a node carries a condition `c` of an unrecognized kind, `CheckCondition`
fails; and when every condition visited before `c` (the conditions of the earlier nodes and
the earlier conditions of its node) is recognized and healthy, it fails with the
unsupported-condition error for the kind of `c`, whatever the later conditions and nodes are. -/
theorem CheckCondition_unsupported (goSyntax : List v1.NodeCondition → String)
    (before after : List v1.Node) (node : v1.Node) (pre post : List v1.NodeCondition)
    (c : v1.NodeCondition) (hnode : node.Status.Conditions = pre ++ c :: post)
    (hc : ¬specRecognized c.Type_) :
    health.CheckCondition goSyntax ⟨before ++ node :: after⟩ ≠ none ∧
    ((∀ n ∈ before, ∀ d ∈ n.Status.Conditions, specHealthy d) → (∀ d ∈ pre, specHealthy d) →
      health.CheckCondition goSyntax ⟨before ++ node :: after⟩ =
        some (GoError.errorf ("unsupported node condition " ++ c.Type_))) := by
  constructor
  · intro hnone
    have hall := (nodeLoop_none_iff goSyntax _).mp hnone node (by simp) c (by simp [hnode])
    apply hc
    rcases hall with ⟨h, _⟩ | ⟨h, _⟩
    · exact Or.inl h
    · exact Or.inr h
  · intro hbefore hpre
    unfold health.CheckCondition
    rw [nodeLoop_append goSyntax before _ hbefore]
    unfold health.nodeLoop
    rw [hnode, conditionLoop_append goSyntax node pre _ hpre]
    unfold health.conditionLoop
    rw [nodeUsable_unrecognized c hc]

/-- C4, amended, on two nodes: the first is healthy, the second has a healthy Ready condition,
then a condition of the unrecognized kind `Foo`, then an unhealthy one. -/
theorem CheckCondition_unsupported_witness :
    health.CheckCondition (fun _ => "conditions")
        ⟨[⟨"n1", ⟨[⟨v1.NodeReady, v1.ConditionTrue⟩]⟩⟩] ++
          ⟨"n2", ⟨[⟨v1.NodeReady, v1.ConditionTrue⟩] ++
            ⟨"Foo", v1.ConditionTrue⟩ :: [⟨v1.NodeDiskPressure, v1.ConditionTrue⟩]⟩⟩ :: []⟩ ≠ none ∧
    health.CheckCondition (fun _ => "conditions")
        ⟨[⟨"n1", ⟨[⟨v1.NodeReady, v1.ConditionTrue⟩]⟩⟩] ++
          ⟨"n2", ⟨[⟨v1.NodeReady, v1.ConditionTrue⟩] ++
            ⟨"Foo", v1.ConditionTrue⟩ :: [⟨v1.NodeDiskPressure, v1.ConditionTrue⟩]⟩⟩ :: []⟩ =
      some (GoError.errorf ("unsupported node condition " ++ "Foo")) :=
  have h := CheckCondition_unsupported (fun _ => "conditions")
    [⟨"n1", ⟨[⟨v1.NodeReady, v1.ConditionTrue⟩]⟩⟩] []
    ⟨"n2", ⟨[⟨v1.NodeReady, v1.ConditionTrue⟩] ++
      ⟨"Foo", v1.ConditionTrue⟩ :: [⟨v1.NodeDiskPressure, v1.ConditionTrue⟩]⟩⟩
    [⟨v1.NodeReady, v1.ConditionTrue⟩] [⟨v1.NodeDiskPressure, v1.ConditionTrue⟩]
    ⟨"Foo", v1.ConditionTrue⟩ rfl (by decide)
  ⟨h.1, h.2 (by decide) (by decide)⟩

/-! ## Theorems: the eviction argument -/

/-- The verb `%d` writes the numbers from 0 to 100 as decimal numerals. -/
theorem fmtD_decimal : ∀ n, n < 101 →
    ((health.fmtD (Int.ofNat n)).data.all regexp.isDigit = true ∧
      decimalValue (health.fmtD (Int.ofNat n)).data = n) := by
  decide

/-- C9: `KubeletEvictionFsByPercentage(p)` succeeds exactly for `0 ≤ p ≤ 100`; on success it
returns `imagefs.available<p%,nodefs.available<p%` with `p` in decimal, on failure the empty
string and an error; so it does for 50, and for -1 and 101. -/
theorem KubeletEvictionFsByPercentage_spec (p : Int) :
    ((health.KubeletEvictionFsByPercentage p).2 = none ↔ 0 ≤ p ∧ p ≤ 100) ∧
    health.KubeletEvictionFsByPercentage p =
      (if 0 ≤ p ∧ p ≤ 100 then
        ("imagefs.available<" ++ health.fmtD p ++ "%,nodefs.available<" ++ health.fmtD p ++ "%",
          none)
      else ("", some (GoError.errorf "percentage must be in rage of 0 and 100"))) ∧
    (if 0 ≤ p ∧ p ≤ 100 then
      (health.fmtD p).data.all regexp.isDigit = true ∧ (decimalValue (health.fmtD p).data : Int) = p
      else True) ∧
    health.KubeletEvictionFsByPercentage 50 =
      ("imagefs.available<50%,nodefs.available<50%", none) ∧
    health.KubeletEvictionFsByPercentage (-1) =
      ("", some (GoError.errorf "percentage must be in rage of 0 and 100")) ∧
    health.KubeletEvictionFsByPercentage 101 =
      ("", some (GoError.errorf "percentage must be in rage of 0 and 100")) := by
  refine ⟨?_, ?_, ?_, by decide, by decide, by decide⟩
  · unfold health.KubeletEvictionFsByPercentage
    by_cases h : p < 0 ∨ p > 100
    · rw [if_pos h]
      simp only [reduceCtorEq, false_iff]
      omega
    · rw [if_neg h]
      simp only [true_iff]
      omega
  · unfold health.KubeletEvictionFsByPercentage
    by_cases h : p < 0 ∨ p > 100
    · rw [if_pos h, if_neg (by omega)]
    · rw [if_neg h, if_pos (by omega)]
  · split
    · rename_i h
      obtain ⟨n, rfl⟩ := Int.eq_ofNat_of_zero_le h.1
      have hn : n < 101 := by omega
      have := fmtD_decimal n hn
      exact ⟨this.1, by exact_mod_cast this.2⟩
    · trivial

/-! ## Theorems: the life cycle of a cluster -/

/-- C8 as stated fails: for a handle whose client set was never constructed `ClientSet`
returns a nil client set and no error. -/
theorem ClientSet_uninitialized_no_error :
    K3dCluster.ClientSet ⟨none, none, none, "", "", none⟩ = (none, none) := by
  rfl

/-- C8, amended: `ClientSet` returns the client set field of the handle as it is (the
previously constructed client set, or nil when none was constructed) and never an error. -/
theorem ClientSet_returns_field (c : K3dCluster) :
    c.ClientSet = (c.clientSet, none) := by
  rfl

/-- A part that returns hands its result to the rest. -/
theorem Run.bind_ret {α β : Type} (m : Run α) (f : α → Run β) (t t1 : Trace) (a : α)
    (h : m t = (Outcome.ret a, t1)) : Run.bind m f t = f a t1 := by
  simp [Run.bind, h]

/-- A part that panics ends the whole. -/
theorem Run.bind_panic {α β : Type} (m : Run α) (f : α → Run β) (t t1 : Trace) (msg : String)
    (h : m t = (Outcome.panic msg, t1)) : Run.bind m f t = (Outcome.panic msg, t1) := by
  simp [Run.bind, h]

/-- When a sequence returns, its first part has returned. -/
theorem Run.bind_ret_inv {α β : Type} (m : Run α) (f : α → Run β) (t t2 : Trace) (b : β)
    (h : Run.bind m f t = (Outcome.ret b, t2)) :
    ∃ a t1, m t = (Outcome.ret a, t1) ∧ f a t1 = (Outcome.ret b, t2) := by
  unfold Run.bind at h
  rcases hm : m t with ⟨o, t1⟩
  rw [hm] at h
  cases o with
  | ret a => exact ⟨a, t1, rfl, h⟩
  | panic msg => simp at h

/-- What `Terminate` does on a handle with a cluster config: one call of `ClusterDelete`. -/
theorem Terminate_eq (w : World) (c : K3dCluster) (cfg : ClusterConfig) (t : Trace)
    (hcfg : c.clusterConfig = some cfg) :
    c.Terminate w t =
      (Outcome.ret (w.ClusterDelete cfg (t ++ [Event.enterTerminate])),
        t ++ [Event.enterTerminate, Event.ClusterDelete cfg]) := by
  simp only [K3dCluster.Terminate, Run.bind, emit, hcfg, deref, Run.pure, call]
  cases w.ClusterDelete cfg (t ++ [Event.enterTerminate]) <;> simp [Run.pure]

/-- What `Terminate` does on a handle without a cluster config: it panics on the nil
pointer. -/
theorem Terminate_nil_config (w : World) (c : K3dCluster) (t : Trace)
    (hcfg : c.clusterConfig = none) :
    c.Terminate w t = (Outcome.panic nilDereference, t ++ [Event.enterTerminate]) := by
  simp [K3dCluster.Terminate, Run.bind, emit, hcfg, deref, panicWith]

/-- The function `panicAtStartError` never returns. -/
theorem panicAtStartError_panics (w : World) (cluster : Option K3dCluster) (err : GoError)
    (t : Trace) : ∃ msg t1, panicAtStartError w cluster err t = (Outcome.panic msg, t1) := by
  cases cluster with
  | none => exact ⟨err.Error, t, rfl⟩
  | some c =>
    cases hcfg : c.clusterConfig with
    | none =>
      exact ⟨nilDereference, t ++ [Event.enterTerminate], by
        simp [panicAtStartError, Run.bind, Terminate_nil_config w c t hcfg]⟩
    | some cfg =>
      exact ⟨err.Error, t ++ [Event.enterTerminate, Event.ClusterDelete cfg], by
        simp [panicAtStartError, Run.bind, Terminate_eq w c cfg t hcfg, panicWith]⟩

/-! ## Theorems: waiting for the default service account -/

/-- A lookup adds one to the number of lookups. -/
theorem lookups_append_lookup (t : Trace) (ns name : String) :
    lookups (t ++ [Event.GetServiceAccount ns name]) = lookups t + 1 := by
  simp [lookups, List.countP_append]

/-- A sleep adds nothing to the number of lookups. -/
theorem lookups_append_sleep (t : Trace) : lookups (t ++ [Event.Sleep]) = lookups t := by
  simp [lookups, List.countP_append]

/-- One attempt of `waitForDefaultSACreation` on a handle with a client set: one lookup, whose
error (if any) is returned while `errRetriable` keeps its value. -/
theorem lookupDefaultSA_eq (w : World) (c : K3dCluster) (cs : ClientSet) (b : Bool)
    (t : Trace) (hcs : c.clientSet = some cs) :
    lookupDefaultSA w c b t =
      (Outcome.ret
        (match w.GetServiceAccount cs DefaultNamespace "default" t with
         | some e => (some e, b)
         | none => (none, true)),
        t ++ [Event.GetServiceAccount DefaultNamespace "default"]) := by
  simp only [lookupDefaultSA, K3dCluster.ClientSet, hcs, deref, Run.bind, Run.pure, call]
  cases w.GetServiceAccount cs DefaultNamespace "default" t <;> rfl

/-- The retry loop when the success comes within the remaining budget: it stops at the
success, after the lookup number `N + 1`. -/
theorem OnErrorLoop_succeeds (w : World) (c : K3dCluster) (cs : ClientSet) (N base : Nat)
    (errs : Nat → GoError) (hcs : c.clientSet = some cs)
    (hfail : ∀ t k, lookups t = base + k → k < N →
      w.GetServiceAccount cs DefaultNamespace "default" t = some (errs k))
    (hsucc : ∀ t, lookups t = base + N →
      w.GetServiceAccount cs DefaultNamespace "default" t = none) :
    ∀ (steps k : Nat) (t : Trace) (lastErr : Option GoError),
      lookups t = base + k → k ≤ N → N - k < steps →
      ∃ t1, OnErrorLoop (fun (b : Bool) _ => b) (lookupDefaultSA w c) steps true lastErr t =
          (Outcome.ret (none, true), t1) ∧ lookups t1 = base + (N + 1) := by
  intro steps
  induction steps with
  | zero => intro k t lastErr _ _ h; omega
  | succ n ih =>
    intro k t lastErr ht hk hlt
    have hstep := lookupDefaultSA_eq w c cs true t hcs
    rcases Nat.lt_or_eq_of_le hk with hlt1 | heq
    · have ha := hfail t k ht hlt1
      have hn : n ≠ 0 := by omega
      obtain ⟨t1, h1, h2⟩ := ih (k + 1)
        (t ++ [Event.GetServiceAccount DefaultNamespace "default"] ++ [Event.Sleep])
        (some (errs k))
        (by rw [lookups_append_sleep, lookups_append_lookup, ht]; omega) (by omega) (by omega)
      refine ⟨t1, ?_, h2⟩
      rw [← h1]
      simp [OnErrorLoop, Run.bind, hstep, ha, hn, emit]
    · subst heq
      have ha := hsucc t ht
      refine ⟨t ++ [Event.GetServiceAccount DefaultNamespace "default"], ?_, ?_⟩
      · simp [OnErrorLoop, Run.bind, hstep, ha, Run.pure]
      · rw [lookups_append_lookup, ht]; omega

/-- The retry loop when every attempt of the remaining budget fails: it makes one lookup per
step and returns the error of the last one. -/
theorem OnErrorLoop_exhausts (w : World) (c : K3dCluster) (cs : ClientSet) (N base : Nat)
    (errs : Nat → GoError) (hcs : c.clientSet = some cs)
    (hfail : ∀ t k, lookups t = base + k → k < N →
      w.GetServiceAccount cs DefaultNamespace "default" t = some (errs k)) :
    ∀ (steps k : Nat) (t : Trace) (lastErr : Option GoError),
      lookups t = base + k → k + (steps + 1) ≤ N →
      ∃ t1, OnErrorLoop (fun (b : Bool) _ => b) (lookupDefaultSA w c) (steps + 1) true lastErr t =
          (Outcome.ret (some (errs (k + steps)), true), t1) ∧
        lookups t1 = base + (k + (steps + 1)) := by
  intro steps
  induction steps with
  | zero =>
    intro k t lastErr ht hk
    have hstep := lookupDefaultSA_eq w c cs true t hcs
    have ha := hfail t k ht (by omega)
    refine ⟨t ++ [Event.GetServiceAccount DefaultNamespace "default"], ?_, ?_⟩
    · simp [OnErrorLoop, Run.bind, hstep, ha, Run.pure]
    · rw [lookups_append_lookup, ht]; omega
  | succ n ih =>
    intro k t lastErr ht hk
    have hstep := lookupDefaultSA_eq w c cs true t hcs
    have ha := hfail t k ht (by omega)
    obtain ⟨t1, h1, h2⟩ := ih (k + 1)
      (t ++ [Event.GetServiceAccount DefaultNamespace "default"] ++ [Event.Sleep])
      (some (errs k))
      (by rw [lookups_append_sleep, lookups_append_lookup, ht]; omega) (by omega)
    refine ⟨t1, ?_, by rw [h2]; omega⟩
    have hidx : k + 1 + n = k + (n + 1) := by omega
    rw [hidx] at h1
    rw [← h1]
    simp [OnErrorLoop, Run.bind, hstep, ha, emit]

/-- C5: when the lookup of the service account fails exactly `N` times (with the errors
`errs 0`, ..., `errs (N - 1)`) and then succeeds, `waitForDefaultSACreation` on a handle with
a client set returns no error after exactly `N + 1` lookups if `N + 1` is at most the step
budget 20; and if `N` is at least 20 it makes exactly 20 lookups and returns an error that
wraps the error of the last of them. -/
theorem waitForDefaultSACreation_retries (w : World) (c : K3dCluster) (cs : ClientSet)
    (N : Nat) (errs : Nat → GoError) (t0 : Trace) (hcs : c.clientSet = some cs)
    (hfail : ∀ t k, lookups t = lookups t0 + k → k < N →
      w.GetServiceAccount cs DefaultNamespace "default" t = some (errs k))
    (hsucc : ∀ t, lookups t = lookups t0 + N →
      w.GetServiceAccount cs DefaultNamespace "default" t = none) :
    (N + 1 ≤ 20 → ∃ t1, c.waitForDefaultSACreation w t0 = (Outcome.ret none, t1) ∧
      lookups t1 = lookups t0 + (N + 1)) ∧
    (20 ≤ N → ∃ e t1, c.waitForDefaultSACreation w t0 = (Outcome.ret (some e), t1) ∧
      e.Unwrap = some (errs 19) ∧
      e = GoError.wrapf "waited too long for default SA: " (errs 19) ∧
      lookups t1 = lookups t0 + 20) := by
  constructor
  · intro hN
    obtain ⟨t1, h1, h2⟩ := OnErrorLoop_succeeds w c cs N (lookups t0) errs hcs hfail hsucc
      20 0 t0 none rfl (by omega) (by omega)
    refine ⟨t1, ?_, h2⟩
    simp [K3dCluster.waitForDefaultSACreation, OnError, defaultSASteps, Run.bind, h1, Run.pure]
  · intro hN
    obtain ⟨t1, h1, h2⟩ := OnErrorLoop_exhausts w c cs N (lookups t0) errs hcs hfail
      19 0 t0 none rfl (by omega)
    refine ⟨GoError.wrapf "waited too long for default SA: " (errs 19), t1, ?_, rfl, rfl, ?_⟩
    · simp only [Nat.zero_add] at h1
      simp [K3dCluster.waitForDefaultSACreation, OnError, defaultSASteps, Run.bind, h1, Run.pure]
    · rw [h2]

/-- C5 in two worlds: with 2 failing lookups the wait succeeds after 3 lookups; with 25
failing lookups it gives up after 20 lookups with the error of the twentieth. -/
theorem waitForDefaultSACreation_retries_witness :
    (∃ t1, K3dCluster.waitForDefaultSACreation (exampleWorld 2 [])
        ⟨none, none, none, "tc-x", "", some ⟨5⟩⟩ [] = (Outcome.ret none, t1) ∧
      lookups t1 = lookups [] + (2 + 1)) ∧
    (∃ e t1, K3dCluster.waitForDefaultSACreation (exampleWorld 25 [])
        ⟨none, none, none, "tc-x", "", some ⟨5⟩⟩ [] = (Outcome.ret (some e), t1) ∧
      e.Unwrap = some (GoError.errorf ("serviceaccounts not found, lookup " ++ health.fmtD 19)) ∧
      e = GoError.wrapf "waited too long for default SA: "
        (GoError.errorf ("serviceaccounts not found, lookup " ++ health.fmtD 19)) ∧
      lookups t1 = lookups [] + 20) :=
  ⟨(waitForDefaultSACreation_retries (exampleWorld 2 [])
      ⟨none, none, none, "tc-x", "", some ⟨5⟩⟩ ⟨5⟩ 2
      (fun k => GoError.errorf ("serviceaccounts not found, lookup " ++ health.fmtD k)) [] rfl
      (fun t k h hk => by
        have h0 : lookups t = k := by simpa [lookups] using h
        simp [exampleWorld, h0, hk])
      (fun t h => by
        have h0 : lookups t = 2 := by simpa [lookups] using h
        simp [exampleWorld, h0])).1 (by decide),
   (waitForDefaultSACreation_retries (exampleWorld 25 [])
      ⟨none, none, none, "tc-x", "", some ⟨5⟩⟩ ⟨5⟩ 25
      (fun k => GoError.errorf ("serviceaccounts not found, lookup " ++ health.fmtD k)) [] rfl
      (fun t k h hk => by
        have h0 : lookups t = k := by simpa [lookups] using h
        simp [exampleWorld, h0, hk])
      (fun t h => by
        have h0 : lookups t = 25 := by simpa [lookups] using h
        simp [exampleWorld, h0])).2 (by decide)⟩

/-! ## Theorems: what `CreateK3dCluster` returns -/

/-- A sequence that starts with `panicAtStartError` does not return. -/
theorem panicAtStartError_bind_ne_ret {β : Type} (w : World) (cluster : Option K3dCluster)
    (err : GoError) (f : Option GoError → Run β) (t t2 : Trace) (b : β) :
    Run.bind (panicAtStartError w cluster err) f t ≠ (Outcome.ret b, t2) := by
  obtain ⟨msg, t1, h⟩ := panicAtStartError_panics w cluster err t
  rw [Run.bind_panic _ _ _ _ _ h]
  simp

/-- A dereference that returns has read a pointer that is not nil. -/
theorem deref_ret_inv {α : Type} (p : Option α) (t t1 : Trace) (a : α)
    (h : deref p t = (Outcome.ret a, t1)) : p = some a ∧ t1 = t := by
  cases p with
  | none => simp [deref, panicWith] at h
  | some x =>
    simp only [deref, Run.pure, Prod.mk.injEq, Outcome.ret.injEq] at h
    exact ⟨by rw [h.1], h.2.symm⟩

/-- When `initializeClientSet` returns no error, the kube config was set, the client config
and the client set are set now, and the other fields are as before. -/
theorem initializeClientSet_ok (w : World) (c c1 : K3dCluster) (t t1 : Trace)
    (h : initializeClientSet w c t = (Outcome.ret (c1, none), t1)) :
    c.kubeConfig ≠ none ∧ c1.kubeConfig = c.kubeConfig ∧ c1.clusterConfig = c.clusterConfig ∧
      c1.clientConfig ≠ none ∧ c1.clientSet ≠ none := by
  unfold initializeClientSet at h
  cases hk : c.kubeConfig with
  | none => simp [hk, panicWith] at h
  | some kube =>
    simp only [hk] at h
    obtain ⟨r1, ta, -, h⟩ := Run.bind_ret_inv _ _ _ _ _ h
    cases r1 with
    | error e => simp [Run.pure] at h
    | ok clientConfig =>
      simp only at h
      obtain ⟨r2, tb, -, h⟩ := Run.bind_ret_inv _ _ _ _ _ h
      cases r2 with
      | error e => simp [Run.pure] at h
      | ok clientSet =>
        simp only [Run.pure, Prod.mk.injEq, Outcome.ret.injEq, and_true] at h
        obtain ⟨hc1, -⟩ := h
        subst hc1
        simp [hk]

/-- When `createDefaultRBACForSA` returns no error, the API has answered the creation of the
service account `sa-ford-prefect` with an object, and the name of that object is returned. -/
theorem createDefaultRBACForSA_ok (w : World) (c : K3dCluster) (name : String) (t t1 : Trace)
    (h : createDefaultRBACForSA w c t = (Outcome.ret (name, none), t1)) :
    ∃ cs t2 sa, w.CreateServiceAccount cs "sa-ford-prefect" t2 = (some sa, none) ∧
      name = sa.Name := by
  unfold createDefaultRBACForSA at h
  simp only [K3dCluster.ClientSet] at h
  obtain ⟨cs, ta, -, h⟩ := Run.bind_ret_inv _ _ _ _ _ h
  obtain ⟨r1, tb, hr1, h⟩ := Run.bind_ret_inv _ _ _ _ _ h
  simp only [call, Prod.mk.injEq, Outcome.ret.injEq] at hr1
  rcases r1 with ⟨sa1, e1⟩
  cases e1 with
  | some e => simp [Run.pure] at h
  | none =>
    simp only at h
    obtain ⟨r2, tc, -, h⟩ := Run.bind_ret_inv _ _ _ _ _ h
    rcases r2 with ⟨cr, e2⟩
    cases e2 with
    | some e => simp [Run.pure] at h
    | none =>
      simp only at h
      obtain ⟨clusterRole, td, -, h⟩ := Run.bind_ret_inv _ _ _ _ _ h
      obtain ⟨sa, te, hsa, h⟩ := Run.bind_ret_inv _ _ _ _ _ h
      have hsa1 := (deref_ret_inv _ _ _ _ hsa).1
      obtain ⟨e3, tf, -, h⟩ := Run.bind_ret_inv _ _ _ _ _ h
      cases e3 with
      | some e => simp [Run.pure] at h
      | none =>
        simp only [Run.pure, Prod.mk.injEq, Outcome.ret.injEq, and_true] at h
        refine ⟨cs, ta, sa, ?_, h.1.symm⟩
        have hlit : "sa-" ++ "ford-prefect" = "sa-ford-prefect" := by decide
        rw [← hlit, hr1.1, hsa1]

/-- What `CreateK3dCluster` returns: no handle and an error, or a handle and no error; the
configs and the client set of the handle are set, and the name of its admin service account
is the name of the object that the API answered the creation of `sa-ford-prefect` with. -/
theorem CreateK3dCluster_ret_cases (w : World) (opts : Opts) (t t1 : Trace)
    (cl : Option K3dCluster) (err : Option GoError)
    (h : CreateK3dCluster w opts t = (Outcome.ret (cl, err), t1)) :
    (cl = none ∧ err ≠ none) ∨
    (∃ c cs t2 sa, cl = some c ∧ err = none ∧ c.clusterConfig ≠ none ∧ c.kubeConfig ≠ none ∧
      c.clientConfig ≠ none ∧ c.clientSet ≠ none ∧
      w.CreateServiceAccount cs "sa-ford-prefect" t2 = (some sa, none) ∧
      c.AdminServiceAccount = sa.Name) := by
  unfold CreateK3dCluster at h
  obtain ⟨_, ta, -, h⟩ := Run.bind_ret_inv _ _ _ _ _ h
  obtain ⟨clusterName, tb, -, h⟩ := Run.bind_ret_inv _ _ _ _ _ h
  obtain ⟨r0, tc, -, h⟩ := Run.bind_ret_inv _ _ _ _ _ h
  simp only at h
  cases hr0 : r0.2 with
  | some e =>
    simp only [hr0, Run.pure, Prod.mk.injEq, Outcome.ret.injEq] at h
    exact Or.inl ⟨h.1.1.symm, by rw [← h.1.2]; simp⟩
  | none =>
    simp only [hr0] at h
    obtain ⟨cfg, td, hcfg, h⟩ := Run.bind_ret_inv _ _ _ _ _ h
    have hcfg1 := (deref_ret_inv _ _ _ _ hcfg).1
    obtain ⟨err1, te, -, h⟩ := Run.bind_ret_inv _ _ _ _ _ h
    cases err1 with
    | some e => exact absurd h (panicAtStartError_bind_ne_ret _ _ _ _ _ _ _)
    | none =>
      simp only at h
      obtain ⟨r2, tf, -, h⟩ := Run.bind_ret_inv _ _ _ _ _ h
      cases hr2 : r2.2 with
      | some e =>
        simp only [hr2] at h
        exact absurd h (panicAtStartError_bind_ne_ret _ _ _ _ _ _ _)
      | none =>
        simp only [hr2] at h
        obtain ⟨r3, tg, hr3, h⟩ := Run.bind_ret_inv _ _ _ _ _ h
        cases hr32 : r3.2 with
        | some e =>
          simp only [hr32] at h
          exact absurd h (panicAtStartError_bind_ne_ret _ _ _ _ _ _ _)
        | none =>
          simp only [hr32] at h
          have hinit := initializeClientSet_ok w _ r3.1 tf tg (by rw [hr3, ← hr32])
          obtain ⟨r4, th, hr4, h⟩ := Run.bind_ret_inv _ _ _ _ _ h
          cases hr42 : r4.2 with
          | some e =>
            simp only [hr42] at h
            exact absurd h (panicAtStartError_bind_ne_ret _ _ _ _ _ _ _)
          | none =>
            simp only [hr42] at h
            obtain ⟨cs, t2, sa, hsa, hname⟩ :=
              createDefaultRBACForSA_ok w r3.1 r4.1 tg th (by rw [hr4, ← hr42])
            obtain ⟨err5, ti, -, h⟩ := Run.bind_ret_inv _ _ _ _ _ h
            cases err5 with
            | some e => exact absurd h (panicAtStartError_bind_ne_ret _ _ _ _ _ _ _)
            | none =>
              simp only at h
              obtain ⟨err6, tj, -, h⟩ := Run.bind_ret_inv _ _ _ _ _ h
              cases err6 with
              | some e => exact absurd h (panicAtStartError_bind_ne_ret _ _ _ _ _ _ _)
              | none =>
                simp only [Run.pure, Prod.mk.injEq, Outcome.ret.injEq] at h
                obtain ⟨⟨hcl, herr⟩, -⟩ := h
                refine Or.inr ⟨_, cs, t2, sa, hcl.symm, herr.symm, ?_, ?_, hinit.2.2.2.1,
                  hinit.2.2.2.2, hsa, ?_⟩
                · simp only
                  rw [hinit.2.2.1]
                  simp [hcfg1]
                · simp only
                  rw [hinit.2.1]
                  exact hinit.1
                · exact hname

/-- The name of the admin service account follows the answer of the API: where the API
answers the creation with an object named `sa-stored`, that name is bound to the cluster role
and stored in the handle. -/
theorem CreateK3dCluster_name_follows_api :
    (CreateK3dCluster
        { exampleWorld 0 [⟨"k3d-tc-abc-server-0", ⟨[⟨v1.NodeReady, v1.ConditionTrue⟩]⟩⟩] with
          CreateServiceAccount := fun _ _ _ => (some ⟨"sa-stored"⟩, none) }
        ⟨"tc-abc", Loglevel.Warning, ""⟩ []).1 =
      Outcome.ret (some ⟨some ⟨2⟩, some ⟨3⟩, some ⟨4⟩, "tc-abc-0a1b2c3d", "sa-stored",
        some ⟨5⟩⟩, none) ∧
    Event.CreateClusterRoleBinding "crb-ford-prefect" "cr-ford-prefect" "sa-stored" ∈
      (CreateK3dCluster
        { exampleWorld 0 [⟨"k3d-tc-abc-server-0", ⟨[⟨v1.NodeReady, v1.ConditionTrue⟩]⟩⟩] with
          CreateServiceAccount := fun _ _ _ => (some ⟨"sa-stored"⟩, none) }
        ⟨"tc-abc", Loglevel.Warning, ""⟩ []).2 := by
  decide

/-- C7: whenever `CreateK3dCluster` returns, it returns either no handle and an error, or a
handle and no error, and then the cluster config, the kube config, the client config, the
client set and the name of the admin service account of the handle are all set. The name is
the one of the object that the API answered the creation of the service account
`sa-ford-prefect` with; that the API answers the creation of a named object with a named
object is the hypothesis `hapi`. -/
theorem CreateK3dCluster_returns (w : World) (opts : Opts) (t t1 : Trace)
    (cl : Option K3dCluster) (err : Option GoError)
    (hapi : ∀ cs name t2 sa, name ≠ "" →
      w.CreateServiceAccount cs name t2 = (some sa, none) → sa.Name ≠ "")
    (h : CreateK3dCluster w opts t = (Outcome.ret (cl, err), t1)) :
    (cl = none ∧ err ≠ none) ∨
    (∃ c, cl = some c ∧ err = none ∧ c.clusterConfig ≠ none ∧ c.kubeConfig ≠ none ∧
      c.clientConfig ≠ none ∧ c.clientSet ≠ none ∧ c.AdminServiceAccount ≠ "" ∧
      ∃ cs t2 sa, w.CreateServiceAccount cs "sa-ford-prefect" t2 = (some sa, none) ∧
        c.AdminServiceAccount = sa.Name) := by
  rcases CreateK3dCluster_ret_cases w opts t t1 cl err h with hnone | hsome
  · exact Or.inl hnone
  · obtain ⟨c, cs, t2, sa, hcl, herr, h1, h2, h3, h4, hsa, hname⟩ := hsome
    refine Or.inr ⟨c, hcl, herr, h1, h2, h3, h4, ?_, cs, t2, sa, hsa, hname⟩
    rw [hname]
    exact hapi cs "sa-ford-prefect" t2 sa (by decide) hsa

/-- The API of `exampleWorld` answers the creation of a named service account with a named
object. -/
theorem exampleWorld_names (failures : Nat) (nodes : List v1.Node) (cs : ClientSet)
    (name : String) (t2 : Trace) (sa : ServiceAccount) (hname : name ≠ "")
    (h : (exampleWorld failures nodes).CreateServiceAccount cs name t2 = (some sa, none)) :
    sa.Name ≠ "" := by
  simp only [exampleWorld, Prod.mk.injEq, Option.some.injEq, and_true] at h
  rw [← h]
  exact hname

/-- C7 in two worlds: where every collaborator succeeds and the one node is ready,
`CreateK3dCluster` returns a fully populated handle and no error; where no free port is found
it returns no handle and the error. -/
theorem CreateK3dCluster_returns_witness :
    ((CreateK3dCluster (exampleWorld 1 [⟨"k3d-tc-abc-server-0", ⟨[⟨v1.NodeReady, v1.ConditionTrue⟩]⟩⟩])
        ⟨"tc-abc", Loglevel.Warning, ""⟩ []).1 =
      Outcome.ret (some ⟨some ⟨2⟩, some ⟨3⟩, some ⟨4⟩, "tc-abc-0a1b2c3d", "sa-ford-prefect",
        some ⟨5⟩⟩, none) ∧
      ((some (⟨some ⟨2⟩, some ⟨3⟩, some ⟨4⟩, "tc-abc-0a1b2c3d", "sa-ford-prefect",
          some ⟨5⟩⟩ : K3dCluster) = none ∧ (none : Option GoError) ≠ none) ∨
        ∃ c, some (⟨some ⟨2⟩, some ⟨3⟩, some ⟨4⟩, "tc-abc-0a1b2c3d", "sa-ford-prefect",
            some ⟨5⟩⟩ : K3dCluster) = some c ∧ (none : Option GoError) = none ∧
          c.clusterConfig ≠ none ∧ c.kubeConfig ≠ none ∧ c.clientConfig ≠ none ∧
          c.clientSet ≠ none ∧ c.AdminServiceAccount ≠ "" ∧
          ∃ cs t2 sa,
            (exampleWorld 1 [⟨"k3d-tc-abc-server-0",
              ⟨[⟨v1.NodeReady, v1.ConditionTrue⟩]⟩⟩]).CreateServiceAccount cs
                "sa-ford-prefect" t2 = (some sa, none) ∧
            c.AdminServiceAccount = sa.Name)) ∧
    ((CreateK3dCluster { exampleWorld 0 [] with
          GetFreePort := fun _ => .error (GoError.errorf "no free port") }
        ⟨"tc-abc", Loglevel.Warning, ""⟩ []).1 =
      Outcome.ret (none, some (GoError.wrapf "could not find free port for port-forward: "
        (GoError.errorf "no free port"))) ∧
      (((none : Option K3dCluster) = none ∧
          some (GoError.wrapf "could not find free port for port-forward: "
            (GoError.errorf "no free port")) ≠ none) ∨
        ∃ c, (none : Option K3dCluster) = some c ∧
          some (GoError.wrapf "could not find free port for port-forward: "
            (GoError.errorf "no free port")) = none ∧
          c.clusterConfig ≠ none ∧ c.kubeConfig ≠ none ∧ c.clientConfig ≠ none ∧
          c.clientSet ≠ none ∧ c.AdminServiceAccount ≠ "" ∧
          ∃ cs t2 sa,
            ({ exampleWorld 0 [] with
              GetFreePort := fun _ => .error (GoError.errorf "no free port") } :
                World).CreateServiceAccount cs "sa-ford-prefect" t2 = (some sa, none) ∧
            c.AdminServiceAccount = sa.Name)) :=
  ⟨⟨by decide,
    CreateK3dCluster_returns
      (exampleWorld 1 [⟨"k3d-tc-abc-server-0", ⟨[⟨v1.NodeReady, v1.ConditionTrue⟩]⟩⟩])
      ⟨"tc-abc", Loglevel.Warning, ""⟩ []
      (CreateK3dCluster
        (exampleWorld 1 [⟨"k3d-tc-abc-server-0", ⟨[⟨v1.NodeReady, v1.ConditionTrue⟩]⟩⟩])
        ⟨"tc-abc", Loglevel.Warning, ""⟩ []).2 _ _
      (exampleWorld_names 1 _) (by decide)⟩,
   ⟨by decide,
    CreateK3dCluster_returns
      { exampleWorld 0 [] with GetFreePort := fun _ => .error (GoError.errorf "no free port") }
      ⟨"tc-abc", Loglevel.Warning, ""⟩ []
      (CreateK3dCluster
        { exampleWorld 0 [] with GetFreePort := fun _ => .error (GoError.errorf "no free port") }
        ⟨"tc-abc", Loglevel.Warning, ""⟩ []).2 _ _
      (fun cs name t2 sa hname h => exampleWorld_names 0 [] cs name t2 sa hname h)
      (by decide)⟩⟩

/-! ## Theorems: the rollback in `panicAtStartError` and the handles that reach it -/

/-- Two sequences agree when their first parts agree and their continuations agree on what
the first part returns. -/
theorem Run.bind_congr {α β : Type} (m m1 : Run α) (f g : α → Run β) (t : Trace)
    (hm : m t = m1 t) (h : ∀ a t1, m t = (Outcome.ret a, t1) → f a t1 = g a t1) :
    Run.bind m f t = Run.bind m1 g t := by
  unfold Run.bind
  rw [← hm]
  rcases hmt : m t with ⟨o, t1⟩
  cases o with
  | ret a => exact h a t1 hmt
  | panic msg => rfl

/-- Whatever `initializeClientSet` returns, it leaves the cluster config of the handle as it
is. -/
theorem initializeClientSet_clusterConfig (w : World) (c : K3dCluster)
    (r : K3dCluster × Option GoError) (t t1 : Trace)
    (h : initializeClientSet w c t = (Outcome.ret r, t1)) :
    r.1.clusterConfig = c.clusterConfig := by
  unfold initializeClientSet at h
  cases hk : c.kubeConfig with
  | none => simp [hk, panicWith] at h
  | some kube =>
    simp only [hk] at h
    obtain ⟨r1, ta, -, h⟩ := Run.bind_ret_inv _ _ _ _ _ h
    cases r1 with
    | error e =>
      simp only [Run.pure, Prod.mk.injEq, Outcome.ret.injEq] at h
      rw [← h.1]
    | ok clientConfig =>
      simp only at h
      obtain ⟨r2, tb, -, h⟩ := Run.bind_ret_inv _ _ _ _ _ h
      cases r2 with
      | error e =>
        simp only [Run.pure, Prod.mk.injEq, Outcome.ret.injEq] at h
        rw [← h.1]
      | ok clientSet =>
        simp only [Run.pure, Prod.mk.injEq, Outcome.ret.injEq] at h
        rw [← h.1]

/-- The function `CreateK3dCluster` is its body at `panicAtStartError`. -/
theorem CreateK3dCluster_eq_With (w : World) (opts : Opts) :
    CreateK3dCluster w opts = CreateK3dClusterWith (panicAtStartError w) w opts := by
  rfl

/-- The function `mustSetupCluster` is its body at `panicAtStartError`. -/
theorem mustSetupCluster_eq_With (w : World) (src : RandSource) (i : Nat) (opts : Opts) :
    mustSetupCluster w src i opts = mustSetupClusterWith (panicAtStartError w) w src i opts := by
  rfl

/-- Every handle that `CreateK3dCluster` passes to `panicAtStartError` has its cluster config
set: the body behaves the same with any two functions in that place that agree on the
handles with a cluster config. -/
theorem CreateK3dClusterWith_congr
    (rollback rollback1 : Option K3dCluster → GoError → Run (Option GoError))
    (w : World) (opts : Opts)
    (hagree : ∀ (c : K3dCluster) (err : GoError), c.clusterConfig ≠ none →
      rollback (some c) err = rollback1 (some c) err) :
    CreateK3dClusterWith rollback w opts = CreateK3dClusterWith rollback1 w opts := by
  funext t
  unfold CreateK3dClusterWith
  refine Run.bind_congr _ _ _ _ _ rfl fun _ ta _ => ?_
  refine Run.bind_congr _ _ _ _ _ rfl fun clusterName tb _ => ?_
  refine Run.bind_congr _ _ _ _ _ rfl fun r0 tc _ => ?_
  rcases r0 with ⟨cfg0, e0⟩
  cases e0 with
  | some e => rfl
  | none =>
    dsimp only
    refine Run.bind_congr _ _ _ _ _ rfl fun cfg td hd => ?_
    have hcfg0 : cfg0 = some cfg := (deref_ret_inv _ _ _ _ hd).1
    subst hcfg0
    refine Run.bind_congr _ _ _ _ _ rfl fun err1 te _ => ?_
    cases err1 with
    | some e =>
      dsimp only
      rw [hagree _ _ (by simp)]
    | none =>
      dsimp only
      refine Run.bind_congr _ _ _ _ _ rfl fun r2 tf _ => ?_
      rcases r2 with ⟨k2, e2⟩
      cases e2 with
      | some e =>
        dsimp only
        rw [hagree _ _ (by simp)]
      | none =>
        dsimp only
        refine Run.bind_congr _ _ _ _ _ rfl fun r3 tg h3 => ?_
        have hc3 := initializeClientSet_clusterConfig w _ r3 tf tg h3
        rcases r3 with ⟨c3, e3⟩
        dsimp only at hc3
        cases e3 with
        | some e =>
          dsimp only
          rw [hagree _ _ (by rw [hc3]; simp)]
        | none =>
          dsimp only
          refine Run.bind_congr _ _ _ _ _ rfl fun r4 th _ => ?_
          rcases r4 with ⟨n4, e4⟩
          cases e4 with
          | some e =>
            dsimp only
            rw [hagree _ _ (by rw [hc3]; simp)]
          | none =>
            dsimp only
            refine Run.bind_congr _ _ _ _ _ rfl fun err5 ti _ => ?_
            cases err5 with
            | some e =>
              dsimp only
              rw [hagree _ _ (by simp [hc3])]
            | none =>
              dsimp only
              refine Run.bind_congr _ _ _ _ _ rfl fun err6 tj _ => ?_
              cases err6 with
              | some e =>
                dsimp only
                rw [hagree _ _ (by simp [hc3])]
              | none => rfl

/-- The only handle that `mustSetupCluster` passes to `panicAtStartError` is the nil handle
(when `CreateK3dCluster` returns an error, it returns no handle): the body behaves the same
with any two functions in that place that agree on the nil handle. -/
theorem mustSetupClusterWith_congr
    (rollback rollback1 : Option K3dCluster → GoError → Run (Option GoError))
    (w : World) (src : RandSource) (i : Nat) (opts : Opts)
    (hnil : ∀ err : GoError, rollback none err = rollback1 none err) :
    mustSetupClusterWith rollback w src i opts = mustSetupClusterWith rollback1 w src i opts := by
  funext t
  unfold mustSetupClusterWith
  dsimp only
  refine Run.bind_congr _ _ _ _ _ ?_ fun _ ta _ => ?_
  · cases (validateClusterNamePrefix src i opts.ClusterNamePrefix).1.2 with
    | none => rfl
    | some err =>
      dsimp only
      rw [hnil]
  · refine Run.bind_congr _ _ _ _ _ rfl fun r tb hr => ?_
    rcases r with ⟨cl, e⟩
    cases e with
    | none => rfl
    | some err =>
      have hcl : cl = none := by
        rcases CreateK3dCluster_ret_cases w _ ta tb cl (some err) hr with h1 | h2
        · exact h1.1
        · obtain ⟨_, _, _, _, _, herr, _⟩ := h2
          simp at herr
      subst hcl
      dsimp only
      rw [hnil]

/-- A handle without a cluster config, which by `CreateK3dClusterWith_congr` and
`mustSetupClusterWith_congr` never reaches `panicAtStartError`, would make the rollback
itself panic on the nil pointer. -/
theorem panicAtStartError_nil_config :
    panicAtStartError (exampleWorld 0 []) (some ⟨none, none, none, "tc-x", "", none⟩)
        (GoError.errorf "port is already allocated") [] =
      (Outcome.panic nilDereference, [Event.enterTerminate]) ∧
    nilDereference ≠ (GoError.errorf "port is already allocated").Error := by
  decide

/-- C6: `panicAtStartError` halts with exactly the message of the original error: for the nil
handle without any call, and for every handle with a cluster config after one call of
`Terminate` (which calls `ClusterDelete` once), whatever `ClusterDelete` answers; for every
non-nil handle it calls `Terminate` exactly once. These are all the handles that reach it:
`CreateK3dCluster` and `mustSetupCluster` are their bodies at `panicAtStartError`, the body of
`CreateK3dCluster` depends on that function only through the handles with a cluster config,
and the body of `mustSetupCluster` only through the nil handle. -/
theorem panicAtStartError_halts (w : World) (err : GoError) (t : Trace) (c : K3dCluster)
    (cfg : ClusterConfig) (hcfg : c.clusterConfig = some cfg) :
    panicAtStartError w none err t = (Outcome.panic err.Error, t) ∧
    panicAtStartError w (some c) err t =
      (Outcome.panic err.Error, t ++ [Event.enterTerminate, Event.ClusterDelete cfg]) ∧
    (∀ c1 : K3dCluster,
      (panicAtStartError w (some c1) err t).2.count Event.enterTerminate =
        t.count Event.enterTerminate + 1) ∧
    (∀ opts : Opts, CreateK3dCluster w opts = CreateK3dClusterWith (panicAtStartError w) w opts) ∧
    (∀ (opts : Opts) (rollback rollback1 : Option K3dCluster → GoError → Run (Option GoError)),
      (∀ (c2 : K3dCluster) (e : GoError), c2.clusterConfig ≠ none →
        rollback (some c2) e = rollback1 (some c2) e) →
      CreateK3dClusterWith rollback w opts = CreateK3dClusterWith rollback1 w opts) ∧
    (∀ (src : RandSource) (i : Nat) (opts : Opts),
      mustSetupCluster w src i opts =
        mustSetupClusterWith (panicAtStartError w) w src i opts) ∧
    (∀ (src : RandSource) (i : Nat) (opts : Opts)
        (rollback rollback1 : Option K3dCluster → GoError → Run (Option GoError)),
      (∀ e : GoError, rollback none e = rollback1 none e) →
      mustSetupClusterWith rollback w src i opts =
        mustSetupClusterWith rollback1 w src i opts) := by
  refine ⟨rfl, ?_, fun c1 => ?_, fun opts => CreateK3dCluster_eq_With w opts,
    fun opts rollback rollback1 h => CreateK3dClusterWith_congr rollback rollback1 w opts h,
    fun src i opts => mustSetupCluster_eq_With w src i opts,
    fun src i opts rollback rollback1 h =>
      mustSetupClusterWith_congr rollback rollback1 w src i opts h⟩
  · simp [panicAtStartError, Run.bind, Terminate_eq w c cfg t hcfg, panicWith]
  · cases h1 : c1.clusterConfig with
    | none => simp [panicAtStartError, Run.bind, Terminate_nil_config w c1 t h1]
    | some cfg1 =>
      simp [panicAtStartError, Run.bind, Terminate_eq w c1 cfg1 t h1, panicWith]

/-- C6 on the nil handle and on a handle with a cluster config, in a world where the deletion
succeeds. -/
theorem panicAtStartError_halts_witness :
    panicAtStartError (exampleWorld 0 []) none (GoError.errorf "port is already allocated") [] =
      (Outcome.panic "port is already allocated", []) ∧
    panicAtStartError (exampleWorld 0 []) (some ⟨some ⟨2⟩, none, none, "tc-x", "", none⟩)
        (GoError.errorf "port is already allocated") [] =
      (Outcome.panic "port is already allocated",
        [] ++ [Event.enterTerminate, Event.ClusterDelete ⟨2⟩]) ∧
    ∀ c1 : K3dCluster,
      (panicAtStartError (exampleWorld 0 []) (some c1)
        (GoError.errorf "port is already allocated") []).2.count Event.enterTerminate =
        ([] : Trace).count Event.enterTerminate + 1 :=
  have h := panicAtStartError_halts (exampleWorld 0 [])
    (GoError.errorf "port is already allocated") []
    ⟨some ⟨2⟩, none, none, "tc-x", "", none⟩ ⟨2⟩ rfl
  ⟨h.1, h.2.1, h.2.2.1⟩

/-! ## Theorems: the first unhealthy node -/

/-- The `switch` of `CheckCondition` leaves `nodeUsable` false for a condition that is of a
recognized kind and not healthy. -/
theorem nodeUsable_ok_false (c : v1.NodeCondition) (hrec : specRecognized c.Type_)
    (hbad : ¬specHealthy c) : health.nodeUsable c = .ok false := by
  have hne : health.nodeUsable c ≠ .ok true := fun h => hbad ((nodeUsable_ok_true_iff c).mp h)
  unfold specRecognized at hrec
  unfold health.nodeUsable at hne ⊢
  by_cases h1 : c.Type_ = v1.NodeReady
  · rw [if_pos h1] at hne ⊢
    cases hd : decide (c.Status = v1.ConditionTrue) with
    | false => rfl
    | true => rw [hd] at hne; exact absurd rfl hne
  · have h2 : c.Type_ = v1.NodeDiskPressure ∨ c.Type_ = v1.NodeMemoryPressure ∨
        c.Type_ = v1.NodeNetworkUnavailable ∨ c.Type_ = v1.NodePIDPressure := by
      rcases hrec with h | h
      · exact absurd h h1
      · exact h
    rw [if_neg h1, if_pos h2] at hne ⊢
    cases hd : decide (c.Status = v1.ConditionFalse) with
    | false => rfl
    | true => rw [hd] at hne; exact absurd rfl hne

/-- On conditions of recognized kinds of which one is not healthy, the inner loop of
`CheckCondition` returns the node-unhealthy error of the node. -/
theorem conditionLoop_unhealthy (goSyntax : List v1.NodeCondition → String) (node : v1.Node)
    (cs : List v1.NodeCondition) (hrec : ∀ c ∈ cs, specRecognized c.Type_)
    (hbad : ∃ c ∈ cs, ¬specHealthy c) :
    health.conditionLoop goSyntax node cs = some (health.unhealthyError goSyntax node) := by
  induction cs with
  | nil => simp at hbad
  | cons c rest ih =>
    by_cases hc : specHealthy c
    · have hu := (nodeUsable_ok_true_iff c).mpr hc
      have hrest : ∃ d ∈ rest, ¬specHealthy d := by
        obtain ⟨d, hd, hdbad⟩ := hbad
        rcases List.mem_cons.mp hd with rfl | hd1
        · exact absurd hc hdbad
        · exact ⟨d, hd1, hdbad⟩
      have := ih (fun d hd => hrec d (List.mem_cons_of_mem _ hd)) hrest
      simp [health.conditionLoop, hu, this]
    · have hu := nodeUsable_ok_false c (hrec c (List.mem_cons_self _ _)) hc
      simp [health.conditionLoop, hu]

/-- A list of nodes of which one has a condition that is not healthy splits at the first
such node. -/
theorem split_first_unhealthy (ns : List v1.Node)
    (hbad : ∃ n ∈ ns, ∃ c ∈ n.Status.Conditions, ¬specHealthy c) :
    ∃ before node after, ns = before ++ node :: after ∧
      (∀ n ∈ before, ∀ d ∈ n.Status.Conditions, specHealthy d) ∧
      ∃ c ∈ node.Status.Conditions, ¬specHealthy c := by
  induction ns with
  | nil => simp at hbad
  | cons n rest ih =>
    by_cases hn : ∀ d ∈ n.Status.Conditions, specHealthy d
    · have hrest : ∃ m ∈ rest, ∃ c ∈ m.Status.Conditions, ¬specHealthy c := by
        obtain ⟨m, hm, c, hc, hcbad⟩ := hbad
        rcases List.mem_cons.mp hm with rfl | hm1
        · exact absurd (hn c hc) hcbad
        · exact ⟨m, hm1, c, hc, hcbad⟩
      obtain ⟨before, node, after, hsplit, hbefore, hnode⟩ := ih hrest
      refine ⟨n :: before, node, after, by rw [hsplit]; rfl, ?_, hnode⟩
      intro m hm
      rcases List.mem_cons.mp hm with rfl | hm1
      · exact hn
      · exact hbefore m hm1
    · refine ⟨[], n, rest, rfl, by simp, ?_⟩
      by_contra hnone
      exact hn fun d hd => by
        by_contra hdbad
        exact hnone ⟨d, hd, hdbad⟩

/-- C11: on a snapshot whose conditions are all of recognized kinds and in which some node
has an unhealthy condition, `CheckCondition` stops at the first such node in snapshot order
(the nodes after it have no influence) and returns the node-unhealthy error, whose message
contains the name of that node and the rendering of its full condition list. -/
theorem CheckCondition_first_unhealthy (goSyntax : List v1.NodeCondition → String)
    (nodeInfo : health.Node)
    (hrec : ∀ n ∈ nodeInfo.Nodes, ∀ c ∈ n.Status.Conditions, specRecognized c.Type_)
    (hbad : ∃ n ∈ nodeInfo.Nodes, ∃ c ∈ n.Status.Conditions, ¬specHealthy c) :
    ∃ before node after, nodeInfo.Nodes = before ++ node :: after ∧
      (∀ n ∈ before, ∀ d ∈ n.Status.Conditions, specHealthy d) ∧
      (∃ c ∈ node.Status.Conditions, ¬specHealthy c) ∧
      health.CheckCondition goSyntax nodeInfo = some (health.unhealthyError goSyntax node) ∧
      Contains (health.unhealthyError goSyntax node).Error node.Name ∧
      Contains (health.unhealthyError goSyntax node).Error (goSyntax node.Status.Conditions) ∧
      ∀ later : List v1.Node,
        health.CheckCondition goSyntax ⟨before ++ node :: later⟩ =
          some (health.unhealthyError goSyntax node) := by
  obtain ⟨before, node, after, hsplit, hbefore, hnode⟩ := split_first_unhealthy _ hbad
  have hnrec : ∀ c ∈ node.Status.Conditions, specRecognized c.Type_ :=
    hrec node (by rw [hsplit]; simp)
  have hstop : ∀ later : List v1.Node,
      health.CheckCondition goSyntax ⟨before ++ node :: later⟩ =
        some (health.unhealthyError goSyntax node) := by
    intro later
    unfold health.CheckCondition
    rw [nodeLoop_append goSyntax before _ hbefore]
    unfold health.nodeLoop
    rw [conditionLoop_unhealthy goSyntax node _ hnrec hnode]
  refine ⟨before, node, after, hsplit, hbefore, hnode, ?_, ?_, ?_, hstop⟩
  · have := hstop after
    rw [← hsplit] at this
    exact this
  · exact ⟨"node is not healthy: condition list for ".data,
      (" indicates a problem: " ++ goSyntax node.Status.Conditions).data,
      by simp [GoError.Error, health.unhealthyError, String.data_append]⟩
  · exact ⟨("node is not healthy: condition list for " ++ node.Name ++
        " indicates a problem: ").data, [],
      by simp [GoError.Error, health.unhealthyError, String.data_append]⟩

/-- C11 on three nodes: the first is healthy, the second is under disk pressure after a
healthy Ready condition, the third is not ready. The error names the second node. -/
theorem CheckCondition_first_unhealthy_witness :
    health.CheckCondition (fun _ => "conditions")
        ⟨[⟨"n1", ⟨[⟨v1.NodeReady, v1.ConditionTrue⟩]⟩⟩,
          ⟨"n2", ⟨[⟨v1.NodeReady, v1.ConditionTrue⟩, ⟨v1.NodeDiskPressure, v1.ConditionTrue⟩]⟩⟩,
          ⟨"n3", ⟨[⟨v1.NodeReady, v1.ConditionFalse⟩]⟩⟩]⟩ =
      some (GoError.errorf
        "node is not healthy: condition list for n2 indicates a problem: conditions") ∧
    ∃ before node after,
      [(⟨"n1", ⟨[⟨v1.NodeReady, v1.ConditionTrue⟩]⟩⟩ : v1.Node),
        ⟨"n2", ⟨[⟨v1.NodeReady, v1.ConditionTrue⟩, ⟨v1.NodeDiskPressure, v1.ConditionTrue⟩]⟩⟩,
        ⟨"n3", ⟨[⟨v1.NodeReady, v1.ConditionFalse⟩]⟩⟩] = before ++ node :: after ∧
      (∀ n ∈ before, ∀ d ∈ n.Status.Conditions, specHealthy d) ∧
      (∃ c ∈ node.Status.Conditions, ¬specHealthy c) ∧
      health.CheckCondition (fun _ => "conditions")
        ⟨[⟨"n1", ⟨[⟨v1.NodeReady, v1.ConditionTrue⟩]⟩⟩,
          ⟨"n2", ⟨[⟨v1.NodeReady, v1.ConditionTrue⟩, ⟨v1.NodeDiskPressure, v1.ConditionTrue⟩]⟩⟩,
          ⟨"n3", ⟨[⟨v1.NodeReady, v1.ConditionFalse⟩]⟩⟩]⟩ =
        some (health.unhealthyError (fun _ => "conditions") node) ∧
      Contains (health.unhealthyError (fun _ => "conditions") node).Error node.Name ∧
      Contains (health.unhealthyError (fun _ => "conditions") node).Error
        ((fun _ => "conditions") node.Status.Conditions) ∧
      ∀ later : List v1.Node,
        health.CheckCondition (fun _ => "conditions") ⟨before ++ node :: later⟩ =
          some (health.unhealthyError (fun _ => "conditions") node) :=
  ⟨by decide,
   CheckCondition_first_unhealthy (fun _ => "conditions")
    ⟨[⟨"n1", ⟨[⟨v1.NodeReady, v1.ConditionTrue⟩]⟩⟩,
      ⟨"n2", ⟨[⟨v1.NodeReady, v1.ConditionTrue⟩, ⟨v1.NodeDiskPressure, v1.ConditionTrue⟩]⟩⟩,
      ⟨"n3", ⟨[⟨v1.NodeReady, v1.ConditionFalse⟩]⟩⟩]⟩
    (by decide) (by decide)⟩

/-- C12: `CheckCondition` returns no error for the snapshot with zero nodes, and for every
snapshot whose nodes all have an empty condition list. -/
theorem CheckCondition_empty (goSyntax : List v1.NodeCondition → String)
    (nodeInfo : health.Node) (hempty : ∀ n ∈ nodeInfo.Nodes, n.Status.Conditions = []) :
    health.CheckCondition goSyntax ⟨[]⟩ = none ∧
    health.CheckCondition goSyntax nodeInfo = none := by
  refine ⟨rfl, ?_⟩
  unfold health.CheckCondition
  rw [nodeLoop_none_iff]
  intro n hn c hc
  rw [hempty n hn] at hc
  simp at hc

/-- C12 on two nodes without conditions. -/
theorem CheckCondition_empty_witness :
    health.CheckCondition (fun _ => "conditions") ⟨[]⟩ = none ∧
    health.CheckCondition (fun _ => "conditions")
      ⟨[⟨"k3d-tc-123456-server0", ⟨[]⟩⟩, ⟨"k3d-tc-123456-agent0", ⟨[]⟩⟩]⟩ = none :=
  CheckCondition_empty (fun _ => "conditions")
    ⟨[⟨"k3d-tc-123456-server0", ⟨[]⟩⟩, ⟨"k3d-tc-123456-agent0", ⟨[]⟩⟩]⟩ (by decide)

/-! ## Theorems: a rejected cluster name prefix -/

/-- C13: when `validateClusterNamePrefix` rejects the prefix of the options with the error
`err`, `mustSetupCluster` halts with the message of `err` and no event has happened: the
trace is unchanged, so there is no entry into `CreateK3dCluster` or `Terminate` and no call
to a collaborator (config build, `ClusterRun` and the rest). The validation itself has taken
its six draws from the random source. -/
theorem mustSetupCluster_rejected (w : World) (src : RandSource) (i : Nat) (opts : Opts)
    (t : Trace) (err : GoError)
    (hrej : (validateClusterNamePrefix src i opts.ClusterNamePrefix).1.2 = some err) :
    mustSetupCluster w src i opts t = (Outcome.panic err.Error, t) ∧
    (mustSetupCluster w src i opts t).2.count Event.enterCreateK3dCluster =
      t.count Event.enterCreateK3dCluster ∧
    (mustSetupCluster w src i opts t).2.count Event.enterTerminate =
      t.count Event.enterTerminate ∧
    (validateClusterNamePrefix src i opts.ClusterNamePrefix).2 = i + 6 := by
  have hrun : mustSetupCluster w src i opts t = (Outcome.panic err.Error, t) := by
    simp [mustSetupCluster, hrej, Run.bind, panicAtStartError, panicWith]
  refine ⟨hrun, by rw [hrun], by rw [hrun], ?_⟩
  unfold validateClusterNamePrefix generatePseudoPrefix
  dsimp only
  split
  · rfl
  · split <;> rfl

/-- C13 at the prefix `a/b`: the program halts with the validation error on an empty trace. -/
theorem mustSetupCluster_rejected_witness :
    mustSetupCluster (exampleWorld 0 []) (fun _ => 0) 0 ⟨"a/b", Loglevel.Warning, ""⟩ [] =
      (Outcome.panic (GoError.errorf (invalidPrefixMessage "tc-a/b")).Error, []) ∧
    (mustSetupCluster (exampleWorld 0 []) (fun _ => 0) 0 ⟨"a/b", Loglevel.Warning, ""⟩ []).2.count
        Event.enterCreateK3dCluster = ([] : Trace).count Event.enterCreateK3dCluster ∧
    (mustSetupCluster (exampleWorld 0 []) (fun _ => 0) 0 ⟨"a/b", Loglevel.Warning, ""⟩ []).2.count
        Event.enterTerminate = ([] : Trace).count Event.enterTerminate ∧
    (validateClusterNamePrefix (fun _ => 0) 0
      (⟨"a/b", Loglevel.Warning, ""⟩ : Opts).ClusterNamePrefix).2 = 0 + 6 :=
  mustSetupCluster_rejected (exampleWorld 0 []) (fun _ => 0) 0 ⟨"a/b", Loglevel.Warning, ""⟩ []
    (GoError.errorf (invalidPrefixMessage "tc-a/b")) (by decide)

/-! ## Theorems: the printable list of nodes -/

/-- The loop of `Node.String` on the last nodes of the list appends their entries, each one
but the last followed by the separator. -/
theorem stringLoop_eq_go (total : Nat) (rest : List v1.Node) :
    ∀ (node : v1.Node) (i : Nat) (sb : String), i + (rest.length + 1) = total →
      health.stringLoop total i (node :: rest) sb =
        String.intercalate.go (sb ++ ("node: " ++ node.Name)) ", "
          (rest.map fun n => "node: " ++ n.Name) := by
  induction rest with
  | nil =>
    intro node i sb hlen
    have hcond : ¬((i : Int) < (total : Int) - 1) := by
      simp only [List.length_nil] at hlen
      omega
    simp [health.stringLoop, hcond, String.intercalate.go, String.append_assoc]
  | cons m rest ih =>
    intro node i sb hlen
    have hcond : (i : Int) < (total : Int) - 1 := by
      simp only [List.length_cons] at hlen
      omega
    have hnext := ih m (i + 1) (sb ++ "node: " ++ node.Name ++ ", ") (by
      simp only [List.length_cons] at hlen
      omega)
    have hstep : health.stringLoop total i (node :: m :: rest) sb =
        health.stringLoop total (i + 1) (m :: rest) (sb ++ "node: " ++ node.Name ++ ", ") := by
      conv => lhs; unfold health.stringLoop
      simp [hcond]
    rw [hstep, hnext]
    simp [String.intercalate.go, String.append_assoc]

/-- C14: `Node.String` returns the entries `node: <name>` of the nodes in list order, joined
by a comma and a blank, without a separator before the first or after the last entry; for
the empty (or nil) list it returns the empty string. The cases of `TestNode_String` are
evaluated. -/
theorem Node_String_joined (info : health.Node) :
    info.String = ", ".intercalate (info.Nodes.map fun n => "node: " ++ n.Name) ∧
    health.Node.String ⟨[]⟩ = "" ∧
    health.Node.String ⟨[⟨"hello-world", ⟨[]⟩⟩]⟩ = "node: hello-world" ∧
    health.Node.String ⟨[⟨"hello", ⟨[]⟩⟩, ⟨"world", ⟨[]⟩⟩]⟩ = "node: hello, node: world" := by
  refine ⟨?_, by decide, by decide, by decide⟩
  rcases info with ⟨nodes⟩
  cases nodes with
  | nil => rfl
  | cons node rest =>
    unfold health.Node.String
    rw [stringLoop_eq_go _ rest node 0 "" (by simp)]
    simp [String.intercalate]

/-! ## Theorems: fetching the nodes -/

/-- What `FetchNodeInfo` does with a client set: one listing of the nodes, then an error for a
failed or an empty listing, and else the snapshot of the listed nodes. -/
theorem FetchNodeInfo_some (w : World) (cs : ClientSet) (t : Trace) :
    health.FetchNodeInfo w (some cs) t =
      (Outcome.ret
        (match w.ListNodes cs t with
         | .error e => (none, some (GoError.wrapf "could not list nodes: " e))
         | .ok items =>
           if items = [] then
             (none, some (GoError.errorf ("could not return node info because no node " ++
               "was found (was it killed in the meantime?)")))
           else (some ⟨items⟩, none)),
        t ++ [Event.ListNodes]) := by
  simp only [health.FetchNodeInfo, Run.bind, call]
  cases w.ListNodes cs t with
  | error e => rfl
  | ok items =>
    cases items with
    | nil => rfl
    | cons n rest => simp [Run.pure]

/-- C15: `FetchNodeInfo` fails without a client set, and with one it lists the nodes once and
fails when the listing fails or has zero nodes, and else returns the snapshot that holds
exactly the listed nodes in their order. Hence, when the listing has zero nodes, a
`checkNodeHealth` that is not skipped fails, although `CheckCondition` accepts the snapshot
without nodes. -/
theorem FetchNodeInfo_and_checkNodeHealth (w : World) (cs : ClientSet) (t : Trace)
    (c : K3dCluster) (hcs : c.clientSet = some cs) (hzero : w.ListNodes cs t = .ok []) :
    (∀ (w1 : World) (t1 : Trace), health.FetchNodeInfo w1 none t1 =
      (Outcome.ret (none, some (GoError.errorf "clientset must not be nil")), t1)) ∧
    (∀ (w1 : World) (cs1 : ClientSet) (t1 : Trace),
      health.FetchNodeInfo w1 (some cs1) t1 =
        (Outcome.ret
          (match w1.ListNodes cs1 t1 with
           | .error e => (none, some (GoError.wrapf "could not list nodes: " e))
           | .ok items =>
             if items = [] then
               (none, some (GoError.errorf ("could not return node info because no node " ++
                 "was found (was it killed in the meantime?)")))
             else (some ⟨items⟩, none)),
          t1 ++ [Event.ListNodes])) ∧
    c.checkNodeHealth w ⟨false⟩ t =
      (Outcome.ret (some (GoError.errorf ("could not return node info because no node " ++
        "was found (was it killed in the meantime?)"))), t ++ [Event.ListNodes]) ∧
    health.CheckCondition w.goSyntax ⟨[]⟩ = none := by
  refine ⟨fun _ _ => rfl, FetchNodeInfo_some, ?_, rfl⟩
  simp [K3dCluster.checkNodeHealth, Run.bind, hcs, FetchNodeInfo_some, hzero, Run.pure]

/-- C15 in three worlds: a cluster that lists zero nodes fails the health check although the
empty snapshot passes `CheckCondition`; a listing of two nodes is returned as it is; a failed
listing is reported with its cause. -/
theorem FetchNodeInfo_and_checkNodeHealth_witness :
    ((∀ (w1 : World) (t1 : Trace), health.FetchNodeInfo w1 none t1 =
        (Outcome.ret (none, some (GoError.errorf "clientset must not be nil")), t1)) ∧
      (∀ (w1 : World) (cs1 : ClientSet) (t1 : Trace),
        health.FetchNodeInfo w1 (some cs1) t1 =
          (Outcome.ret
            (match w1.ListNodes cs1 t1 with
             | .error e => (none, some (GoError.wrapf "could not list nodes: " e))
             | .ok items =>
               if items = [] then
                 (none, some (GoError.errorf ("could not return node info because no node " ++
                   "was found (was it killed in the meantime?)")))
               else (some ⟨items⟩, none)),
            t1 ++ [Event.ListNodes])) ∧
      K3dCluster.checkNodeHealth (exampleWorld 0 [])
          ⟨some ⟨2⟩, some ⟨3⟩, some ⟨4⟩, "tc-x", "sa-ford-prefect", some ⟨5⟩⟩ ⟨false⟩ [] =
        (Outcome.ret (some (GoError.errorf ("could not return node info because no node " ++
          "was found (was it killed in the meantime?)"))), [] ++ [Event.ListNodes]) ∧
      health.CheckCondition (exampleWorld 0 []).goSyntax ⟨[]⟩ = none) ∧
    health.FetchNodeInfo (exampleWorld 0 [⟨"server0", ⟨[]⟩⟩, ⟨"agent0", ⟨[]⟩⟩]) (some ⟨5⟩) [] =
      (Outcome.ret (some ⟨[⟨"server0", ⟨[]⟩⟩, ⟨"agent0", ⟨[]⟩⟩]⟩, none), [Event.ListNodes]) ∧
    health.FetchNodeInfo
        { exampleWorld 0 [] with ListNodes := fun _ _ => .error (GoError.errorf "timeout") }
        (some ⟨5⟩) [] =
      (Outcome.ret (none, some (GoError.wrapf "could not list nodes: "
        (GoError.errorf "timeout"))), [Event.ListNodes]) :=
  ⟨FetchNodeInfo_and_checkNodeHealth (exampleWorld 0 []) ⟨5⟩ []
      ⟨some ⟨2⟩, some ⟨3⟩, some ⟨4⟩, "tc-x", "sa-ford-prefect", some ⟨5⟩⟩ rfl rfl,
    by decide, by decide⟩

end Testclusters
